import Mathlib

/-!
Shallow embedding of `src/netlify/functions/generate-lease.js` (the request
pipeline orchestrator of the lease-generator repository).

The handler's collaborators (`lib/rateLimit`, `lib/captcha`, `lib/schema`,
`lib/llm`, `lib/telemetry`, `lib/pdf`) are not part of the sources; per
request they each contribute one result, so a request context `Ctx` records
the per-request outcome of every external call, and the handler is embedded
as a pure function of the context.  Side effects (calls made to the
collaborators, console error logging) are made observable as an event trace
and an error-log field in the handler's output.
-/

namespace LeaseGen

/-- A JavaScript exception as observed by the handler's catch block:
`error.message` and `error.stack`. -/
structure JsError where
  message : String
  stack : String
deriving Repr, DecidableEq

/-- One entry of a zod `error.errors` array: a field path and a message. -/
structure ZodIssue where
  path : List String
  msg : String
deriving Repr, DecidableEq

/-- Result of `rateLimitMiddleware(event)`: `success`, `status`, extra
response `headers`, an `error` string, and the bookkeeping values
`remaining` / `resetTime`. -/
structure RateLimitResult where
  success : Bool
  status : Nat
  headers : List (String × String)
  error : String
  remaining : Nat
  resetTime : Nat
deriving Repr, DecidableEq

/-- The parsed JSON request body, as far as the handler reads it directly:
only `body.captchaToken` is accessed before schema validation. -/
structure ParsedBody where
  captchaToken : Option String
deriving Repr, DecidableEq

/-- The token usage record returned by the generation backend. -/
structure TokenUsage where
  promptTokens : Nat
  completionTokens : Nat
deriving Repr, DecidableEq

/-- Successful result of `llmProvider.generateLease(validatedInput)`:
`{ leaseData, tokenUsage, estimatedCost }`.  The lease record itself is
opaque to the orchestrator (it is only passed on), so it is modelled as an
opaque handle. -/
structure GenSuccess where
  leaseData : Nat
  tokenUsage : TokenUsage
  estimatedCost : Nat
deriving Repr, DecidableEq

/-- Result of a zod `safeParse`: a success flag and, on failure, the
`error.errors` issue list. -/
structure ValidationResult where
  success : Bool
  errors : List ZodIssue
deriving Repr, DecidableEq

/-- Per-request context: the incoming event together with the outcome each
external collaborator produces for this request.  A throwing call is an
`Except.error` carrying the JavaScript exception. -/
structure Ctx where
  httpMethod : String
  rawBody : String
  rateLimit : RateLimitResult
  parsedBody : Except JsError ParsedBody
  captchaRequired : Bool
  verifyCaptcha : String → Bool
  inputValidation : ValidationResult
  genResult : Except JsError GenSuccess
  outputValidation : ValidationResult
  renderResult : Except JsError (List Nat)
  now : Nat
  nowIso : String
  isDevelopment : Bool

/-- Observable calls the handler makes, in order. -/
inductive Ev where
  | rateLimitCall
  | verifyCaptchaCall (token : String)
  | inputValidateCall
  | createProviderCall
  | generateCall
  | outputValidateCall
  | logTokenUsageCall (u : TokenUsage)
  | trackDailyCostCall (cost : Nat)
  | renderCall (leaseData : Nat)
deriving Repr, DecidableEq

/-- The `details` field of a JSON error body: either a zod issue list or a
stack trace string. -/
inductive Details where
  | issues (es : List ZodIssue)
  | stack (s : String)
deriving Repr, DecidableEq

/-- A response body: empty string, a JSON object
`{success, error, message?, details?}`, or base64-encoded document bytes. -/
inductive RespBody where
  | empty
  | json (success : Bool) (error : String) (message : Option String)
      (details : Option Details)
  | b64 (bytes : List Nat)
deriving Repr, DecidableEq

/-- An HTTP response as returned by the Netlify handler. -/
structure Response where
  statusCode : Nat
  headers : List (String × String)
  body : RespBody
  isBase64Encoded : Bool
deriving Repr, DecidableEq

/-- Handler output: the trace of collaborator calls, the catch block's
server-side error log (message, stack, ISO timestamp) when taken, and the
HTTP response. -/
structure HandlerOut where
  trace : List Ev
  errorLog : Option (String × String × String)
  response : Response
deriving Repr, DecidableEq

/-- The CORS headers set at the top of the handler. -/
def corsHeaders : List (String × String) :=
  [("Access-Control-Allow-Origin", "*"),
   ("Access-Control-Allow-Headers", "Content-Type"),
   ("Access-Control-Allow-Methods", "GET, POST, OPTIONS")]

/-- Modelled from the spec: `lib/pdf`'s `getDocumentMimeType` (not under the
sources) returns the binary document content type for the docx format. -/
def getDocumentMimeType (_format : String) : String :=
  "application/vnd.openxmlformats-officedocument.wordprocessingml.document"

/-- Modelled from the spec: `lib/pdf`'s `getDocumentExtension` (not under
the sources) returns the dotted extension, so that the filename
`lease-<unix-timestamp><ext>` matches `lease-\d+\.docx`. -/
def getDocumentExtension (_format : String) : String :=
  ".docx"

/-- JavaScript truthiness of `body.captchaToken`: absent and the empty
string are both falsy. -/
def truthy : Option String → Bool
  | none => false
  | some t => !(t == "")

/-- The catch block's 500 response: opaque `error`, a `message` embedding
the exception's message, and `details` carrying the stack only in
development mode. -/
def resp500 (c : Ctx) (e : JsError) : Response :=
  { statusCode := 500
    headers := corsHeaders
    body := .json false "Internal server error"
      (some ("An unexpected error occurred: " ++ e.message ++ ". Please try again."))
      (if c.isDevelopment then some (.stack e.stack) else none)
    isBase64Encoded := false }

/-- Handler output of the catch block: the error is logged server-side with
message, stack and an ISO timestamp, then `resp500` is returned. -/
def throwOut (c : Ctx) (tr : List Ev) (e : JsError) : HandlerOut :=
  ⟨tr, some (e.message, e.stack, c.nowIso), resp500 c e⟩

/-- Stages 3-7 of the pipeline (input validation, LLM call, output
validation, telemetry, rendering, success response), entered once the
abuse-guard gates have passed; `tr` is the trace accumulated so far. -/
def afterCaptcha (c : Ctx) (tr : List Ev) : HandlerOut :=
  let tr := tr ++ [Ev.inputValidateCall]
  if c.inputValidation.success = false then
    ⟨tr, none,
      ⟨400, corsHeaders,
        .json false "Invalid input data" none
          (some (.issues c.inputValidation.errors)), false⟩⟩
  else
    let tr := tr ++ [Ev.createProviderCall, Ev.generateCall]
    match c.genResult with
    | .error e => throwOut c tr e
    | .ok g =>
      let tr := tr ++ [Ev.outputValidateCall]
      if c.outputValidation.success = false then
        let missingFields :=
          c.outputValidation.errors.map (fun err => String.intercalate "." err.path)
        ⟨tr, none,
          ⟨422, corsHeaders,
            .json false "Invalid lease data generated"
              (some ("Missing or invalid fields: " ++
                String.intercalate ", " missingFields ++ ". Please try again."))
              (some (.issues c.outputValidation.errors)), false⟩⟩
      else
        let tr := tr ++ [Ev.logTokenUsageCall g.tokenUsage,
          Ev.trackDailyCostCall g.estimatedCost, Ev.renderCall g.leaseData]
        match c.renderResult with
        | .error e => throwOut c tr e
        | .ok buf =>
          let filename :=
            "lease-" ++ Nat.repr c.now ++ getDocumentExtension "docx"
          ⟨tr, none,
            ⟨200,
              [("Content-Type", getDocumentMimeType "docx"),
               ("Content-Disposition",
                 "attachment; filename=\"" ++ filename ++ "\""),
               ("X-Rate-Limit-Remaining", Nat.repr c.rateLimit.remaining),
               ("X-Rate-Limit-Reset", Nat.repr c.rateLimit.resetTime)]
                ++ corsHeaders,
              .b64 buf, true⟩⟩

/-- The request handler of `generate-lease.js`: OPTIONS preflight, rate
limiting, JSON body parse, optional captcha gate, then `afterCaptcha`.
Exceptions from the body parse, the LLM call and rendering land in the
catch block (`throwOut`). -/
def handler (c : Ctx) : HandlerOut :=
  if c.httpMethod = "OPTIONS" then
    ⟨[], none, ⟨200, corsHeaders, .empty, false⟩⟩
  else
    let tr := [Ev.rateLimitCall]
    if c.rateLimit.success = false then
      ⟨tr, none,
        ⟨c.rateLimit.status, corsHeaders ++ c.rateLimit.headers,
          .json false c.rateLimit.error none none, false⟩⟩
    else
      match c.parsedBody with
      | .error e => throwOut c tr e
      | .ok body =>
        if c.captchaRequired then
          match body.captchaToken with
          | none =>
            ⟨tr, none,
              ⟨400, corsHeaders,
                .json false "Captcha token missing" none none, false⟩⟩
          | some t =>
            if t == "" then
              ⟨tr, none,
                ⟨400, corsHeaders,
                  .json false "Captcha token missing" none none, false⟩⟩
            else
              let tr := tr ++ [Ev.verifyCaptchaCall t]
              if c.verifyCaptcha t = false then
                ⟨tr, none,
                  ⟨403, corsHeaders,
                    .json false "Captcha verification failed" none none, false⟩⟩
              else
                afterCaptcha c tr
        else
          afterCaptcha c tr

/-- The verification events the captcha gate emits for a request whose body
parsed to `b`: one `verifyCaptchaCall` exactly when the gate is enabled and
the token is truthy. -/
def verifyEvents (c : Ctx) (b : ParsedBody) : List Ev :=
  if c.captchaRequired then
    match b.captchaToken with
    | none => []
    | some t => if t == "" then [] else [Ev.verifyCaptchaCall t]
  else []

/-- The verification events of a context: `verifyEvents` of its parsed
body, when the body parsed at all. -/
def verifyPart (c : Ctx) : List Ev :=
  match c.parsedBody with
  | .ok b => verifyEvents c b
  | .error _ => []

/-- The telemetry and render events of a context, available once the
generation call returned. -/
def telemetryTail (c : Ctx) : List Ev :=
  match c.genResult with
  | .ok g => [Ev.logTokenUsageCall g.tokenUsage,
      Ev.trackDailyCostCall g.estimatedCost, Ev.renderCall g.leaseData]
  | .error _ => []

/-- The full ordered stage sequence the spec prescribes for a request
context; every handler trace must be a prefix of it. -/
def stageSeq (c : Ctx) : List Ev :=
  [Ev.rateLimitCall] ++ verifyPart c
    ++ [Ev.inputValidateCall, Ev.createProviderCall, Ev.generateCall,
        Ev.outputValidateCall]
    ++ telemetryTail c

/-- Pipeline stage of an event: RateLimit 0, ChallengeVerify 1,
InputValidate 2, Generate 3 (provider construction and the LLM call),
OutputValidate 4, Telemetry 5, Render 6. -/
def stageIdx : Ev → Nat
  | .rateLimitCall => 0
  | .verifyCaptchaCall _ => 1
  | .inputValidateCall => 2
  | .createProviderCall => 3
  | .generateCall => 3
  | .outputValidateCall => 4
  | .logTokenUsageCall _ => 5
  | .trackDailyCostCall _ => 5
  | .renderCall _ => 6

/-- Recognises a captcha verification call. -/
def isVerifyEv : Ev → Bool
  | .verifyCaptchaCall _ => true
  | _ => false

/-- Recognises a provider-construction call (`createLLMProvider()`). -/
def isCreateProviderEv : Ev → Bool
  | .createProviderCall => true
  | _ => false

/-- Recognises the generation backend call. -/
def isGenerateEv : Ev → Bool
  | .generateCall => true
  | _ => false

/-- Recognises a `logTokenUsage` call. -/
def isLogTokenUsageEv : Ev → Bool
  | .logTokenUsageCall _ => true
  | _ => false

/-- Recognises a `trackDailyCost` call. -/
def isTrackDailyCostEv : Ev → Bool
  | .trackDailyCostCall _ => true
  | _ => false

/-- Recognises the renderer call. -/
def isRenderEv : Ev → Bool
  | .renderCall _ => true
  | _ => false

/-- Header lookup with JavaScript object-spread semantics: the last
occurrence of a key wins. -/
def getHeader (hs : List (String × String)) (k : String) : Option String :=
  (hs.reverse.find? (fun p => p.1 == k)).map (fun p => p.2)

/-- The captcha gate lets the request through: either verification is not
required, or a truthy token is present and the verification service
accepted it. -/
def PastCaptcha (c : Ctx) (b : ParsedBody) : Prop :=
  c.captchaRequired = false ∨
    ∃ t, b.captchaToken = some t ∧ (t == "") = false ∧ c.verifyCaptcha t = true

/-- The `message` field of a JSON response body, if any. -/
def respMessage (r : Response) : Option String :=
  match r.body with
  | .json _ _ m _ => m
  | _ => none

/-- The `details` field of a JSON response body, if any. -/
def respDetails (r : Response) : Option Details :=
  match r.body with
  | .json _ _ _ d => d
  | _ => none

/-- The `error` field of a JSON response body, if any. -/
def respError (r : Response) : Option String :=
  match r.body with
  | .json _ e _ _ => some e
  | _ => none

/-- Modelled from the spec: the failure result `lib/rateLimit`'s middleware
(not under the sources) returns when the quota is exceeded — `success`
false, status 429 (too many requests), and headers already carrying the
remaining-quota and reset values for client backoff. -/
def rateLimitExceededResult (rem rst : Nat) : RateLimitResult :=
  { success := false
    status := 429
    headers := [("X-Rate-Limit-Remaining", Nat.repr rem),
                ("X-Rate-Limit-Reset", Nat.repr rst)]
    error := "Too many requests"
    remaining := rem
    resetTime := rst }

/-- The terminal response when the rate limiter reports the quota
exceeded: the middleware's status, error string and extra headers. -/
def respRateLimited (c : Ctx) : Response :=
  ⟨c.rateLimit.status, corsHeaders ++ c.rateLimit.headers,
    .json false c.rateLimit.error none none, false⟩

/-- The terminal 400 response for a missing (or empty, hence falsy)
captcha token. -/
def respCaptchaMissing : Response :=
  ⟨400, corsHeaders, .json false "Captcha token missing" none none, false⟩

/-- The terminal 403 response for a captcha token the verification service
rejected. -/
def respCaptchaRejected : Response :=
  ⟨403, corsHeaders, .json false "Captcha verification failed" none none,
    false⟩

/-- The terminal 400 response for input that fails the input schema,
carrying the field-level issue list. -/
def respInputInvalid (c : Ctx) : Response :=
  ⟨400, corsHeaders,
    .json false "Invalid input data" none
      (some (.issues c.inputValidation.errors)), false⟩

/-- The user-facing message of the 422 response: the offending field paths
joined by dots and commas, plus the retry instruction. -/
def outputInvalidMessage (c : Ctx) : String :=
  "Missing or invalid fields: " ++
    String.intercalate ", "
      (c.outputValidation.errors.map
        (fun err => String.intercalate "." err.path)) ++
    ". Please try again."

/-- The terminal 422 response for generator output that fails the output
schema, carrying the offending field paths and a retry instruction. -/
def respOutputInvalid (c : Ctx) : Response :=
  ⟨422, corsHeaders,
    .json false "Invalid lease data generated"
      (some (outputInvalidMessage c))
      (some (.issues c.outputValidation.errors)), false⟩

/-- The 200 success response: document content type, timestamped
attachment filename, rate-limit bookkeeping headers, base64 body. -/
def successResponse (c : Ctx) (buf : List Nat) : Response :=
  ⟨200,
    [("Content-Type", getDocumentMimeType "docx"),
     ("Content-Disposition",
       "attachment; filename=\"" ++
         ("lease-" ++ Nat.repr c.now ++ ".docx") ++ "\""),
     ("X-Rate-Limit-Remaining", Nat.repr c.rateLimit.remaining),
     ("X-Rate-Limit-Reset", Nat.repr c.rateLimit.resetTime)]
      ++ corsHeaders,
    .b64 buf, true⟩

/-- A concrete happy-path request context: captcha required with an
accepted token, valid input and output, a 4-byte rendered document. -/
def ctx0 : Ctx :=
  { httpMethod := "POST"
    rawBody := "{}"
    rateLimit := ⟨true, 200, [], "", 9, 1700000000⟩
    parsedBody := .ok ⟨some "tok"⟩
    captchaRequired := true
    verifyCaptcha := fun _ => true
    inputValidation := ⟨true, []⟩
    genResult := .ok ⟨7, ⟨100, 200⟩, 3⟩
    outputValidation := ⟨true, []⟩
    renderResult := .ok [1, 2, 3, 4]
    now := 1700000001
    nowIso := "2023-11-14T22:13:21.000Z"
    isDevelopment := false }

/-- `ctx0` with a generation backend that throws an exception whose message
is "boom", in production mode. -/
def ctxGenBoom : Ctx :=
  { ctx0 with genResult := .error ⟨"boom", "stacktrace-boom"⟩ }

/-- Like `ctxGenBoom` but the thrown exception's message is "bam". -/
def ctxGenBam : Ctx :=
  { ctx0 with genResult := .error ⟨"bam", "stacktrace-bam"⟩ }

/-- `ctx0` with a request body that is not parseable JSON: `JSON.parse`
throws a SyntaxError. -/
def ctxBadJson : Ctx :=
  { ctx0 with
    rawBody := "not json"
    parsedBody := .error ⟨"Unexpected token o in JSON at position 1",
      "SyntaxError: Unexpected token o in JSON at position 1"⟩ }

/-- `ctx0` with a renderer that throws after telemetry has run. -/
def ctxRenderFail : Ctx :=
  { ctx0 with renderResult := .error ⟨"render failed", "stacktrace-render"⟩ }

/-- `ctx0` with a generator output that omits `financials.monthlyRent`, so
output validation fails with that field path. -/
def ctxBadOutput : Ctx :=
  { ctx0 with
    outputValidation := ⟨false, [⟨["financials", "monthlyRent"], "Required"⟩]⟩ }

/-- `ctx0` hitting a rate limiter that reports the quota exceeded. -/
def ctxRateLimited : Ctx :=
  { ctx0 with rateLimit := rateLimitExceededResult 0 1700000600 }

/-- `ctx0` with captcha verification required but no token in the body. -/
def ctxNoToken : Ctx :=
  { ctx0 with parsedBody := .ok ⟨none⟩ }

/-- All gates up to (and including) input validation pass and the handler
reaches the generation stage. -/
def ReachesGeneration (c : Ctx) : Prop :=
  ¬ c.httpMethod = "OPTIONS" ∧ c.rateLimit.success = true ∧
    (∃ b, c.parsedBody = .ok b ∧ PastCaptcha c b) ∧
    c.inputValidation.success = true

/-- The request reaches output validation and passes it: all gates up to
the output schema check succeed. -/
def PassesOutputValidation (c : Ctx) : Prop :=
  ¬ c.httpMethod = "OPTIONS" ∧ c.rateLimit.success = true ∧
    (∃ b, c.parsedBody = .ok b ∧ PastCaptcha c b) ∧
    c.inputValidation.success = true ∧ (∃ g, c.genResult = .ok g) ∧
    c.outputValidation.success = true

/-- The middleware's extra headers do not shadow any CORS header key. -/
def NoCorsOverride (c : Ctx) : Prop :=
  ∀ p ∈ c.rateLimit.headers, ¬ p.1 = "Access-Control-Allow-Origin" ∧
    ¬ p.1 = "Access-Control-Allow-Headers" ∧
    ¬ p.1 = "Access-Control-Allow-Methods"

/-- What the handler produces when an exception `e` reaches the catch
block: a 500 with opaque `error`, a `message` embedding the exception's
message, stack details only in development mode, and a server-side log of
message, stack and timestamp. -/
def ErrorOutcome (c : Ctx) (e : JsError) : Prop :=
  (handler c).response.statusCode = 500 ∧
    respError (handler c).response = some "Internal server error" ∧
    respMessage (handler c).response =
      some ("An unexpected error occurred: " ++ e.message ++
        ". Please try again.") ∧
    (c.isDevelopment = false → respDetails (handler c).response = none) ∧
    (c.isDevelopment = true →
      respDetails (handler c).response = some (.stack e.stack)) ∧
    (handler c).errorLog = some (e.message, e.stack, c.nowIso)

/-- Claim C1 as a predicate on a request context: the trace is a prefix of
the prescribed stage sequence, and a failure at any stage bounds the trace
to stages at or before the failing one. -/
def C1Prop (c : Ctx) : Prop :=
  (∃ n, (handler c).trace = (stageSeq c).take n)
    ∧ (c.rateLimit.success = false →
        ∀ e ∈ (handler c).trace, stageIdx e ≤ 0)
    ∧ (∀ b, c.parsedBody = .ok b → c.captchaRequired = true →
        truthy b.captchaToken = false →
        ∀ e ∈ (handler c).trace, stageIdx e ≤ 1)
    ∧ (∀ b t, c.parsedBody = .ok b → b.captchaToken = some t →
        (t == "") = false → c.captchaRequired = true →
        c.verifyCaptcha t = false →
        ∀ e ∈ (handler c).trace, stageIdx e ≤ 1)
    ∧ (c.inputValidation.success = false →
        ∀ e ∈ (handler c).trace, stageIdx e ≤ 2)
    ∧ (∀ er, c.genResult = .error er →
        ∀ e ∈ (handler c).trace, stageIdx e ≤ 3)
    ∧ (c.outputValidation.success = false →
        ∀ e ∈ (handler c).trace, stageIdx e ≤ 4)

/-- Claim C2 as a predicate: every failure kind maps to its status and
payload. -/
def C2Prop (c : Ctx) : Prop :=
  ∀ b, c.rateLimit.success = true → c.parsedBody = .ok b →
    ((c.captchaRequired = true → truthy b.captchaToken = false →
        (handler c).response.statusCode = 400 ∧
        respError (handler c).response = some "Captcha token missing")
    ∧ (∀ t, c.captchaRequired = true → b.captchaToken = some t →
        (t == "") = false → c.verifyCaptcha t = false →
        (handler c).response.statusCode = 403 ∧
        respError (handler c).response = some "Captcha verification failed")
    ∧ (PastCaptcha c b → c.inputValidation.success = false →
        (handler c).response.statusCode = 400 ∧
        respDetails (handler c).response =
          some (.issues c.inputValidation.errors) ∧
        respError (handler c).response = some "Invalid input data")
    ∧ (∀ g, PastCaptcha c b → c.inputValidation.success = true →
        c.genResult = .ok g → c.outputValidation.success = false →
        (handler c).response.statusCode = 422 ∧
        respDetails (handler c).response =
          some (.issues c.outputValidation.errors) ∧
        respMessage (handler c).response = some (outputInvalidMessage c) ∧
        (handler c).trace.countP isRenderEv = 0)
    ∧ (∀ e, PastCaptcha c b → c.inputValidation.success = true →
        c.genResult = .error e → (handler c).response.statusCode = 500)
    ∧ (∀ g e, PastCaptcha c b → c.inputValidation.success = true →
        c.genResult = .ok g → c.outputValidation.success = true →
        c.renderResult = .error e → (handler c).response.statusCode = 500))

/-- Claim C3 as a predicate: when the rate limiter denies the request, the
response is terminal with the middleware's status and headers, and the
generation backend is never invoked; with the spec-modelled exceeded
result, the status is 429 and the headers carry remaining/reset. -/
def C3Prop (c : Ctx) : Prop :=
  (c.rateLimit.success = false →
      (handler c).response.statusCode = c.rateLimit.status ∧
      (handler c).response.headers = corsHeaders ++ c.rateLimit.headers ∧
      (handler c).trace.countP isGenerateEv = 0 ∧
      (handler c).trace.countP isCreateProviderEv = 0)
  ∧ (∀ rem rst, c.rateLimit = rateLimitExceededResult rem rst →
      (handler c).response.statusCode = 429 ∧
      getHeader (handler c).response.headers "X-Rate-Limit-Remaining" =
        some (Nat.repr rem) ∧
      getHeader (handler c).response.headers "X-Rate-Limit-Reset" =
        some (Nat.repr rst) ∧
      (handler c).trace.countP isGenerateEv = 0)

/-- Claim C4 as a predicate: missing token gives 400 with no verification
call and no generation call; rejected token gives 403 after exactly one
verification call and no generation call. -/
def C4Prop (c : Ctx) : Prop :=
  ∀ b, c.rateLimit.success = true → c.parsedBody = .ok b →
    c.captchaRequired = true →
    ((truthy b.captchaToken = false →
        (handler c).response.statusCode = 400 ∧
        (handler c).trace.countP isVerifyEv = 0 ∧
        (handler c).trace.countP isGenerateEv = 0)
    ∧ (∀ t, b.captchaToken = some t → (t == "") = false →
        c.verifyCaptcha t = false →
        (handler c).response.statusCode = 403 ∧
        (handler c).trace.countP isVerifyEv = 1 ∧
        (handler c).trace.countP isGenerateEv = 0))

/-- The amended claim C5 as a predicate: every uncaught failure (body
parse, generation, rendering) yields the `ErrorOutcome` — the stack is
redacted outside development mode, but the response message embeds the
exception's message in every mode, and the failure is logged server-side
with a timestamp. -/
def C5Prop (c : Ctx) : Prop :=
  (∀ e, c.rateLimit.success = true → c.parsedBody = .error e →
      ErrorOutcome c e)
  ∧ (∀ b e, c.rateLimit.success = true → c.parsedBody = .ok b →
      PastCaptcha c b → c.inputValidation.success = true →
      c.genResult = .error e → ErrorOutcome c e)
  ∧ (∀ b g e, c.rateLimit.success = true → c.parsedBody = .ok b →
      PastCaptcha c b → c.inputValidation.success = true →
      c.genResult = .ok g → c.outputValidation.success = true →
      c.renderResult = .error e → ErrorOutcome c e)

/-- Claim C6 as a predicate: the all-gates-pass response is a 200 whose
headers carry the document content type, the timestamped attachment
filename, and the rate-limit bookkeeping, and whose body is the renderer's
buffer, transport-encoded. -/
def C6Prop (c : Ctx) : Prop :=
  ∀ b g buf, c.rateLimit.success = true → c.parsedBody = .ok b →
    PastCaptcha c b → c.inputValidation.success = true →
    c.genResult = .ok g → c.outputValidation.success = true →
    c.renderResult = .ok buf →
    (handler c).response.statusCode = 200 ∧
    getHeader (handler c).response.headers "Content-Type" =
      some (getDocumentMimeType "docx") ∧
    getHeader (handler c).response.headers "Content-Disposition" =
      some ("attachment; filename=\"" ++
        ("lease-" ++ Nat.repr c.now ++ ".docx") ++ "\"") ∧
    (∃ ts : Nat, getHeader (handler c).response.headers
        "Content-Disposition" =
      some ("attachment; filename=\"" ++
        ("lease-" ++ Nat.repr ts ++ ".docx") ++ "\"")) ∧
    getHeader (handler c).response.headers "X-Rate-Limit-Remaining" =
      some (Nat.repr c.rateLimit.remaining) ∧
    getHeader (handler c).response.headers "X-Rate-Limit-Reset" =
      some (Nat.repr c.rateLimit.resetTime) ∧
    (handler c).response.body = .b64 buf ∧
    (handler c).response.isBase64Encoded = true

/-- The amended claim C7 as a predicate: a parseable body failing the input
schema yields 400 with field-level details, while an unparseable body is an
uncaught exception and yields 500. -/
def C7Prop (c : Ctx) : Prop :=
  (∀ b, c.rateLimit.success = true → c.parsedBody = .ok b →
      PastCaptcha c b → c.inputValidation.success = false →
      (handler c).response.statusCode = 400 ∧
      respDetails (handler c).response =
        some (.issues c.inputValidation.errors))
  ∧ (∀ e, c.rateLimit.success = true → c.parsedBody = .error e →
      (handler c).response.statusCode = 500)

/-- The amended claim C8 as a predicate: backend selection happens inside
the per-request pipeline — exactly one provider construction per request
that reaches the generation stage, none otherwise. -/
def C8Prop (c : Ctx) : Prop :=
  (ReachesGeneration c →
      (handler c).trace.countP isCreateProviderEv = 1)
  ∧ (¬ ReachesGeneration c →
      (handler c).trace.countP isCreateProviderEv = 0)

/-- Claim C9 as a predicate: the response headers resolve all three CORS
keys to the values set at the top of the handler. -/
def C9Prop (c : Ctx) : Prop :=
  getHeader (handler c).response.headers "Access-Control-Allow-Origin" =
    some "*" ∧
  getHeader (handler c).response.headers "Access-Control-Allow-Headers" =
    some "Content-Type" ∧
  getHeader (handler c).response.headers "Access-Control-Allow-Methods" =
    some "GET, POST, OPTIONS"

/-- The amended claim C10 as a predicate: telemetry runs exactly once iff
the request passes output validation; in particular the 422 path leaves
telemetry untouched. -/
def C10Prop (c : Ctx) : Prop :=
  (((handler c).trace.countP isLogTokenUsageEv = 1 ∧
    (handler c).trace.countP isTrackDailyCostEv = 1) ↔
      PassesOutputValidation c)
  ∧ (c.outputValidation.success = false →
      (handler c).trace.countP isLogTokenUsageEv = 0 ∧
      (handler c).trace.countP isTrackDailyCostEv = 0)

section CaseLemmas

variable (c : Ctx)

/-- OPTIONS preflight: empty 200 with the CORS headers, no calls made. -/
theorem handler_options (h : c.httpMethod = "OPTIONS") :
    handler c = ⟨[], none, ⟨200, corsHeaders, .empty, false⟩⟩ := by
  simp [handler, h]

/-- Rate limit exceeded: terminal response from the middleware's status,
headers and error; only the rate limiter was called. -/
theorem handler_rateFail (h1 : ¬ c.httpMethod = "OPTIONS")
    (h2 : c.rateLimit.success = false) :
    handler c = ⟨[Ev.rateLimitCall], none, respRateLimited c⟩ := by
  simp [handler, respRateLimited, h1, h2]

/-- Unparseable JSON body: the exception lands in the catch block. -/
theorem handler_parseError (e : JsError) (h1 : ¬ c.httpMethod = "OPTIONS")
    (h2 : c.rateLimit.success = true) (h3 : c.parsedBody = .error e) :
    handler c = throwOut c [Ev.rateLimitCall] e := by
  simp [handler, h1, h2, h3]

/-- Captcha required but the token is missing or empty: 400, no
verification call. -/
theorem handler_captchaMissing (b : ParsedBody)
    (h1 : ¬ c.httpMethod = "OPTIONS") (h2 : c.rateLimit.success = true)
    (h3 : c.parsedBody = .ok b) (h4 : c.captchaRequired = true)
    (h5 : truthy b.captchaToken = false) :
    handler c = ⟨[Ev.rateLimitCall], none, respCaptchaMissing⟩ := by
  cases htok : b.captchaToken with
  | none => simp [handler, respCaptchaMissing, h1, h2, h3, h4, htok]
  | some t =>
    rw [htok] at h5
    simp only [truthy, Bool.not_eq_false'] at h5
    simp [handler, respCaptchaMissing, h1, h2, h3, h4, htok, h5]

/-- Captcha required and the service rejects the token: 403 after exactly
the one verification call. -/
theorem handler_captchaRejected (b : ParsedBody) (t : String)
    (h1 : ¬ c.httpMethod = "OPTIONS") (h2 : c.rateLimit.success = true)
    (h3 : c.parsedBody = .ok b) (h4 : c.captchaRequired = true)
    (h5 : b.captchaToken = some t) (h6 : (t == "") = false)
    (h7 : c.verifyCaptcha t = false) :
    handler c = ⟨[Ev.rateLimitCall, Ev.verifyCaptchaCall t], none,
      respCaptchaRejected⟩ := by
  simp [handler, respCaptchaRejected, h1, h2, h3, h4, h5, h6, h7]

/-- Past the abuse-guard gates the handler proceeds with `afterCaptcha`,
having traced the rate-limit call and the captcha verification events. -/
theorem handler_pastCaptcha (b : ParsedBody)
    (h1 : ¬ c.httpMethod = "OPTIONS") (h2 : c.rateLimit.success = true)
    (h3 : c.parsedBody = .ok b) (h4 : PastCaptcha c b) :
    handler c = afterCaptcha c ([Ev.rateLimitCall] ++ verifyEvents c b) := by
  rcases h4 with h4 | ⟨t, ht, hne, hv⟩
  · simp [handler, verifyEvents, h1, h2, h3, h4]
  · cases h4 : c.captchaRequired with
    | false => simp [handler, verifyEvents, h1, h2, h3, h4]
    | true => simp [handler, verifyEvents, h1, h2, h3, h4, ht, hne, hv]

end CaseLemmas

section AfterCaptchaLemmas

variable (c : Ctx) (tr : List Ev)

/-- Input schema invalid: 400 carrying the field-level issue list. -/
theorem afterCaptcha_inputInvalid (h : c.inputValidation.success = false) :
    afterCaptcha c tr = ⟨tr ++ [Ev.inputValidateCall], none,
      respInputInvalid c⟩ := by
  simp [afterCaptcha, respInputInvalid, h]

/-- Generation call throws: the exception lands in the catch block after
provider construction and the generate call. -/
theorem afterCaptcha_genError (e : JsError)
    (h1 : c.inputValidation.success = true) (h2 : c.genResult = .error e) :
    afterCaptcha c tr = throwOut c
      (tr ++ [Ev.inputValidateCall, Ev.createProviderCall, Ev.generateCall])
      e := by
  simp [afterCaptcha, h1, h2]

/-- Generator output fails the output schema: 422 with the offending field
paths and a retry instruction; telemetry and renderer are not reached. -/
theorem afterCaptcha_outputInvalid (g : GenSuccess)
    (h1 : c.inputValidation.success = true) (h2 : c.genResult = .ok g)
    (h3 : c.outputValidation.success = false) :
    afterCaptcha c tr = ⟨tr ++ [Ev.inputValidateCall, Ev.createProviderCall,
        Ev.generateCall, Ev.outputValidateCall], none,
      respOutputInvalid c⟩ := by
  simp [afterCaptcha, respOutputInvalid, outputInvalidMessage, h1, h2, h3]

/-- Renderer throws: telemetry has already run, then the exception lands in
the catch block. -/
theorem afterCaptcha_renderError (g : GenSuccess) (e : JsError)
    (h1 : c.inputValidation.success = true) (h2 : c.genResult = .ok g)
    (h3 : c.outputValidation.success = true)
    (h4 : c.renderResult = .error e) :
    afterCaptcha c tr = throwOut c
      (tr ++ [Ev.inputValidateCall, Ev.createProviderCall, Ev.generateCall,
        Ev.outputValidateCall, Ev.logTokenUsageCall g.tokenUsage,
        Ev.trackDailyCostCall g.estimatedCost, Ev.renderCall g.leaseData])
      e := by
  simp [afterCaptcha, h1, h2, h3, h4]

/-- All gates pass: 200 with the document headers and base64 body. -/
theorem afterCaptcha_success (g : GenSuccess) (buf : List Nat)
    (h1 : c.inputValidation.success = true) (h2 : c.genResult = .ok g)
    (h3 : c.outputValidation.success = true)
    (h4 : c.renderResult = .ok buf) :
    afterCaptcha c tr = ⟨tr ++ [Ev.inputValidateCall, Ev.createProviderCall,
        Ev.generateCall, Ev.outputValidateCall,
        Ev.logTokenUsageCall g.tokenUsage,
        Ev.trackDailyCostCall g.estimatedCost, Ev.renderCall g.leaseData],
      none, successResponse c buf⟩ := by
  simp [afterCaptcha, successResponse, h1, h2, h3, h4, getDocumentExtension]

end AfterCaptchaLemmas

/-- The captcha gate emits no verification event or exactly one, for the
token of the parsed body. -/
theorem verifyEvents_cases (c : Ctx) (b : ParsedBody) :
    verifyEvents c b = [] ∨
      ∃ t, b.captchaToken = some t ∧
        verifyEvents c b = [Ev.verifyCaptchaCall t] := by
  unfold verifyEvents
  cases hreq : c.captchaRequired with
  | false => exact Or.inl rfl
  | true =>
    cases htok : b.captchaToken with
    | none => exact Or.inl rfl
    | some t =>
      by_cases he : (t == "") = true
      · exact Or.inl (by simp [he])
      · exact Or.inr ⟨t, rfl, by simp [he]⟩

/-- Exhaustive case analysis of the pipeline past the abuse-guard gates:
input validation fails, the LLM call throws, output validation fails, the
renderer throws, or everything succeeds. -/
theorem handler_afterCases (c : Ctx) (b : ParsedBody)
    (h1 : ¬ c.httpMethod = "OPTIONS") (h2 : c.rateLimit.success = true)
    (h3 : c.parsedBody = .ok b) (hpc : PastCaptcha c b) :
    (c.inputValidation.success = false ∧
      handler c = ⟨[Ev.rateLimitCall] ++ verifyEvents c b ++
          [Ev.inputValidateCall], none, respInputInvalid c⟩)
    ∨ (∃ e, c.inputValidation.success = true ∧ c.genResult = .error e ∧
        handler c = throwOut c ([Ev.rateLimitCall] ++ verifyEvents c b ++
          [Ev.inputValidateCall, Ev.createProviderCall, Ev.generateCall]) e)
    ∨ (∃ g, c.inputValidation.success = true ∧ c.genResult = .ok g ∧
        c.outputValidation.success = false ∧
        handler c = ⟨[Ev.rateLimitCall] ++ verifyEvents c b ++
          [Ev.inputValidateCall, Ev.createProviderCall, Ev.generateCall,
            Ev.outputValidateCall], none, respOutputInvalid c⟩)
    ∨ (∃ g e, c.inputValidation.success = true ∧ c.genResult = .ok g ∧
        c.outputValidation.success = true ∧ c.renderResult = .error e ∧
        handler c = throwOut c ([Ev.rateLimitCall] ++ verifyEvents c b ++
          [Ev.inputValidateCall, Ev.createProviderCall, Ev.generateCall,
            Ev.outputValidateCall, Ev.logTokenUsageCall g.tokenUsage,
            Ev.trackDailyCostCall g.estimatedCost,
            Ev.renderCall g.leaseData]) e)
    ∨ (∃ g buf, c.inputValidation.success = true ∧ c.genResult = .ok g ∧
        c.outputValidation.success = true ∧ c.renderResult = .ok buf ∧
        handler c = ⟨[Ev.rateLimitCall] ++ verifyEvents c b ++
          [Ev.inputValidateCall, Ev.createProviderCall, Ev.generateCall,
            Ev.outputValidateCall, Ev.logTokenUsageCall g.tokenUsage,
            Ev.trackDailyCostCall g.estimatedCost,
            Ev.renderCall g.leaseData], none, successResponse c buf⟩) := by
  have heq := handler_pastCaptcha c b h1 h2 h3 hpc
  by_cases h5 : c.inputValidation.success = true
  · cases hg : c.genResult with
    | error e =>
      refine Or.inr (Or.inl ⟨e, h5, rfl, ?_⟩)
      rw [heq, afterCaptcha_genError c _ e h5 hg]
    | ok g =>
      by_cases h8 : c.outputValidation.success = true
      · cases hr : c.renderResult with
        | error e =>
          refine Or.inr (Or.inr (Or.inr (Or.inl ⟨g, e, h5, rfl, h8, rfl, ?_⟩)))
          rw [heq, afterCaptcha_renderError c _ g e h5 hg h8 hr]
        | ok buf =>
          refine Or.inr (Or.inr (Or.inr (Or.inr ⟨g, buf, h5, rfl, h8, rfl, ?_⟩)))
          rw [heq, afterCaptcha_success c _ g buf h5 hg h8 hr]
      · rw [Bool.not_eq_true] at h8
        refine Or.inr (Or.inr (Or.inl ⟨g, h5, rfl, h8, ?_⟩))
        rw [heq, afterCaptcha_outputInvalid c _ g h5 hg h8]
  · rw [Bool.not_eq_true] at h5
    refine Or.inl ⟨h5, ?_⟩
    rw [heq, afterCaptcha_inputInvalid c _ h5]

/-- Exhaustive case analysis of the handler: each disjunct records the gate
outcomes of the case together with the handler's full output. -/
theorem handler_cases (c : Ctx) :
    (c.httpMethod = "OPTIONS" ∧
      handler c = ⟨[], none, ⟨200, corsHeaders, .empty, false⟩⟩)
    ∨ (¬ c.httpMethod = "OPTIONS" ∧ c.rateLimit.success = false ∧
        handler c = ⟨[Ev.rateLimitCall], none, respRateLimited c⟩)
    ∨ (∃ e, ¬ c.httpMethod = "OPTIONS" ∧ c.rateLimit.success = true ∧
        c.parsedBody = .error e ∧
        handler c = throwOut c [Ev.rateLimitCall] e)
    ∨ (∃ b, ¬ c.httpMethod = "OPTIONS" ∧ c.rateLimit.success = true ∧
        c.parsedBody = .ok b ∧ c.captchaRequired = true ∧
        truthy b.captchaToken = false ∧
        handler c = ⟨[Ev.rateLimitCall], none, respCaptchaMissing⟩)
    ∨ (∃ b t, ¬ c.httpMethod = "OPTIONS" ∧ c.rateLimit.success = true ∧
        c.parsedBody = .ok b ∧ c.captchaRequired = true ∧
        b.captchaToken = some t ∧ (t == "") = false ∧
        c.verifyCaptcha t = false ∧
        handler c = ⟨[Ev.rateLimitCall, Ev.verifyCaptchaCall t], none,
          respCaptchaRejected⟩)
    ∨ (∃ b, ¬ c.httpMethod = "OPTIONS" ∧ c.rateLimit.success = true ∧
        c.parsedBody = .ok b ∧ PastCaptcha c b ∧
        c.inputValidation.success = false ∧
        handler c = ⟨[Ev.rateLimitCall] ++ verifyEvents c b ++
          [Ev.inputValidateCall], none, respInputInvalid c⟩)
    ∨ (∃ b e, ¬ c.httpMethod = "OPTIONS" ∧ c.rateLimit.success = true ∧
        c.parsedBody = .ok b ∧ PastCaptcha c b ∧
        c.inputValidation.success = true ∧ c.genResult = .error e ∧
        handler c = throwOut c ([Ev.rateLimitCall] ++ verifyEvents c b ++
          [Ev.inputValidateCall, Ev.createProviderCall, Ev.generateCall]) e)
    ∨ (∃ b g, ¬ c.httpMethod = "OPTIONS" ∧ c.rateLimit.success = true ∧
        c.parsedBody = .ok b ∧ PastCaptcha c b ∧
        c.inputValidation.success = true ∧ c.genResult = .ok g ∧
        c.outputValidation.success = false ∧
        handler c = ⟨[Ev.rateLimitCall] ++ verifyEvents c b ++
          [Ev.inputValidateCall, Ev.createProviderCall, Ev.generateCall,
            Ev.outputValidateCall], none, respOutputInvalid c⟩)
    ∨ (∃ b g e, ¬ c.httpMethod = "OPTIONS" ∧ c.rateLimit.success = true ∧
        c.parsedBody = .ok b ∧ PastCaptcha c b ∧
        c.inputValidation.success = true ∧ c.genResult = .ok g ∧
        c.outputValidation.success = true ∧ c.renderResult = .error e ∧
        handler c = throwOut c ([Ev.rateLimitCall] ++ verifyEvents c b ++
          [Ev.inputValidateCall, Ev.createProviderCall, Ev.generateCall,
            Ev.outputValidateCall, Ev.logTokenUsageCall g.tokenUsage,
            Ev.trackDailyCostCall g.estimatedCost,
            Ev.renderCall g.leaseData]) e)
    ∨ (∃ b g buf, ¬ c.httpMethod = "OPTIONS" ∧ c.rateLimit.success = true ∧
        c.parsedBody = .ok b ∧ PastCaptcha c b ∧
        c.inputValidation.success = true ∧ c.genResult = .ok g ∧
        c.outputValidation.success = true ∧ c.renderResult = .ok buf ∧
        handler c = ⟨[Ev.rateLimitCall] ++ verifyEvents c b ++
          [Ev.inputValidateCall, Ev.createProviderCall, Ev.generateCall,
            Ev.outputValidateCall, Ev.logTokenUsageCall g.tokenUsage,
            Ev.trackDailyCostCall g.estimatedCost,
            Ev.renderCall g.leaseData], none, successResponse c buf⟩) := by
  by_cases h1 : c.httpMethod = "OPTIONS"
  · exact Or.inl ⟨h1, handler_options c h1⟩
  by_cases h2 : c.rateLimit.success = true
  · cases hpb : c.parsedBody with
    | error e =>
      exact Or.inr (Or.inr (Or.inl
        ⟨e, h1, h2, rfl, handler_parseError c e h1 h2 hpb⟩))
    | ok b =>
      by_cases h4 : c.captchaRequired = true
      · cases htok : b.captchaToken with
        | none =>
          have htr : truthy b.captchaToken = false := by rw [htok]; rfl
          exact Or.inr (Or.inr (Or.inr (Or.inl ⟨b, h1, h2, rfl, h4, htr,
            handler_captchaMissing c b h1 h2 hpb h4 htr⟩)))
        | some t =>
          by_cases h6 : (t == "") = true
          · have htr : truthy b.captchaToken = false := by
              rw [htok]; simp [truthy, h6]
            exact Or.inr (Or.inr (Or.inr (Or.inl ⟨b, h1, h2, rfl, h4, htr,
              handler_captchaMissing c b h1 h2 hpb h4 htr⟩)))
          · rw [Bool.not_eq_true] at h6
            by_cases h7 : c.verifyCaptcha t = true
            · have hpc : PastCaptcha c b := Or.inr ⟨t, htok, h6, h7⟩
              have := handler_afterCases c b h1 h2 hpb hpc
              rcases this with hc | hc | hc | hc | hc
              · exact Or.inr (Or.inr (Or.inr (Or.inr (Or.inr (Or.inl
                  ⟨b, h1, h2, rfl, hpc, hc.1, hc.2⟩)))))
              · obtain ⟨e, ha, hb', hc'⟩ := hc
                exact Or.inr (Or.inr (Or.inr (Or.inr (Or.inr (Or.inr (Or.inl
                  ⟨b, e, h1, h2, rfl, hpc, ha, hb', hc'⟩))))))
              · obtain ⟨g, ha, hb', hcc, hd⟩ := hc
                exact Or.inr (Or.inr (Or.inr (Or.inr (Or.inr (Or.inr (Or.inr
                  (Or.inl ⟨b, g, h1, h2, rfl, hpc, ha, hb', hcc, hd⟩)))))))
              · obtain ⟨g, e, ha, hb', hcc, hd, he'⟩ := hc
                exact Or.inr (Or.inr (Or.inr (Or.inr (Or.inr (Or.inr (Or.inr
                  (Or.inr (Or.inl
                    ⟨b, g, e, h1, h2, rfl, hpc, ha, hb', hcc, hd, he'⟩))))))))
              · obtain ⟨g, buf, ha, hb', hcc, hd, he'⟩ := hc
                exact Or.inr (Or.inr (Or.inr (Or.inr (Or.inr (Or.inr (Or.inr
                  (Or.inr (Or.inr
                    ⟨b, g, buf, h1, h2, rfl, hpc, ha, hb', hcc, hd, he'⟩))))))))
            · rw [Bool.not_eq_true] at h7
              exact Or.inr (Or.inr (Or.inr (Or.inr (Or.inl
                ⟨b, t, h1, h2, rfl, h4, htok, h6, h7,
                  handler_captchaRejected c b t h1 h2 hpb h4 htok h6 h7⟩))))
      · rw [Bool.not_eq_true] at h4
        have hpc : PastCaptcha c b := Or.inl h4
        have := handler_afterCases c b h1 h2 hpb hpc
        rcases this with hc | hc | hc | hc | hc
        · exact Or.inr (Or.inr (Or.inr (Or.inr (Or.inr (Or.inl
            ⟨b, h1, h2, rfl, hpc, hc.1, hc.2⟩)))))
        · obtain ⟨e, ha, hb', hc'⟩ := hc
          exact Or.inr (Or.inr (Or.inr (Or.inr (Or.inr (Or.inr (Or.inl
            ⟨b, e, h1, h2, rfl, hpc, ha, hb', hc'⟩))))))
        · obtain ⟨g, ha, hb', hcc, hd⟩ := hc
          exact Or.inr (Or.inr (Or.inr (Or.inr (Or.inr (Or.inr (Or.inr
            (Or.inl ⟨b, g, h1, h2, rfl, hpc, ha, hb', hcc, hd⟩)))))))
        · obtain ⟨g, e, ha, hb', hcc, hd, he'⟩ := hc
          exact Or.inr (Or.inr (Or.inr (Or.inr (Or.inr (Or.inr (Or.inr
            (Or.inr (Or.inl
              ⟨b, g, e, h1, h2, rfl, hpc, ha, hb', hcc, hd, he'⟩))))))))
        · obtain ⟨g, buf, ha, hb', hcc, hd, he'⟩ := hc
          exact Or.inr (Or.inr (Or.inr (Or.inr (Or.inr (Or.inr (Or.inr
            (Or.inr (Or.inr
              ⟨b, g, buf, h1, h2, rfl, hpc, ha, hb', hcc, hd, he'⟩))))))))
  · rw [Bool.not_eq_true] at h2
    exact Or.inr (Or.inl ⟨h1, h2, handler_rateFail c h1 h2⟩)

/-- A request past the captcha gate cannot have had a missing token while
the gate was enabled. -/
theorem pastCaptcha_not_missing {c : Ctx} {b : ParsedBody}
    (hpc : PastCaptcha c b) (hreq : c.captchaRequired = true)
    (htr : truthy b.captchaToken = false) : False := by
  rcases hpc with h | ⟨t, ht, hne, _⟩
  · simp [hreq] at h
  · rw [ht] at htr
    simp [truthy, hne] at htr

/-- A request past the captcha gate cannot carry a token the service
rejected. -/
theorem pastCaptcha_not_rejected {c : Ctx} {b : ParsedBody} {t : String}
    (hpc : PastCaptcha c b) (hreq : c.captchaRequired = true)
    (ht : b.captchaToken = some t) (hv : c.verifyCaptcha t = false) :
    False := by
  rcases hpc with h | ⟨t2, ht2, _, hv2⟩
  · simp [hreq] at h
  · rw [ht] at ht2
    injection ht2 with h'
    subst h'
    rw [hv] at hv2
    cases hv2

/-- Two parse outcomes of the same context agree. -/
theorem parsedBody_ok_inj {c : Ctx} {b b2 : ParsedBody}
    (h1 : c.parsedBody = .ok b) (h2 : c.parsedBody = .ok b2) : b = b2 := by
  rw [h1] at h2
  injection h2

/-- Verification events never satisfy a predicate that is false on all
verification calls. -/
theorem countP_verifyEvents_zero (c : Ctx) (b : ParsedBody) (p : Ev → Bool)
    (hp : ∀ t, p (Ev.verifyCaptchaCall t) = false) :
    (verifyEvents c b).countP p = 0 := by
  rcases verifyEvents_cases c b with h | ⟨t, _, h⟩ <;>
    simp [h, List.countP_cons, hp]

/-- C2: a missing challenge token yields 400, a rejected one 403, schema-
invalid input 400 with the field-level error list, schema-invalid generator
output 422 with the offending field paths and a retry instruction (and the
renderer is not invoked), and an uncaught failure during generation or
rendering 500. -/
theorem c2_failure_status_mapping (c : Ctx)
    (h : ¬ c.httpMethod = "OPTIONS") : C2Prop c := by
  intro b h2 hp
  rcases handler_cases c with ⟨hm, _⟩ | ⟨_, hrl, _⟩ | ⟨e, _, _, hpb, _⟩ |
    ⟨b2, _, _, hpb, hreq, htr, he⟩ |
    ⟨b2, t, _, _, hpb, hreq, htok, hne, hv, he⟩ |
    ⟨b2, _, _, hpb, hpc, hin, he⟩ | ⟨b2, e, _, _, hpb, hpc, hin, hg, he⟩ |
    ⟨b2, g, _, _, hpb, hpc, hin, hg, hout, he⟩ |
    ⟨b2, g, e, _, _, hpb, hpc, hin, hg, hout, hr, he⟩ |
    ⟨b2, g, buf, _, _, hpb, hpc, hin, hg, hout, hr, he⟩
  · exact absurd hm h
  · simp [h2] at hrl
  · rw [hp] at hpb
    simp at hpb
  · obtain rfl := parsedBody_ok_inj hp hpb
    refine ⟨fun _ _ => by rw [he]; exact ⟨rfl, rfl⟩, ?_, ?_, ?_, ?_, ?_⟩
    · intro t _ htok2 hne2 _
      rw [htok2] at htr
      simp [truthy, hne2] at htr
    · intro hpc _
      exact (pastCaptcha_not_missing hpc hreq htr).elim
    · intro g hpc _ _ _
      exact (pastCaptcha_not_missing hpc hreq htr).elim
    · intro e hpc _ _
      exact (pastCaptcha_not_missing hpc hreq htr).elim
    · intro g e hpc _ _ _ _
      exact (pastCaptcha_not_missing hpc hreq htr).elim
  · obtain rfl := parsedBody_ok_inj hp hpb
    refine ⟨?_, ?_, ?_, ?_, ?_, ?_⟩
    · intro _ htr
      rw [htok] at htr
      simp [truthy, hne] at htr
    · intro t2 _ htok2 _ _
      rw [htok] at htok2
      injection htok2 with h'
      subst h'
      rw [he]
      exact ⟨rfl, rfl⟩
    · intro hpc _
      exact (pastCaptcha_not_rejected hpc hreq htok hv).elim
    · intro g hpc _ _ _
      exact (pastCaptcha_not_rejected hpc hreq htok hv).elim
    · intro e hpc _ _
      exact (pastCaptcha_not_rejected hpc hreq htok hv).elim
    · intro g e hpc _ _ _ _
      exact (pastCaptcha_not_rejected hpc hreq htok hv).elim
  · obtain rfl := parsedBody_ok_inj hp hpb
    refine ⟨?_, ?_, ?_, ?_, ?_, ?_⟩
    · intro hreq htr
      exact (pastCaptcha_not_missing hpc hreq htr).elim
    · intro t hreq htok hne hv
      exact (pastCaptcha_not_rejected hpc hreq htok hv).elim
    · intro _ _
      rw [he]
      exact ⟨rfl, rfl, rfl⟩
    · intro g _ hin2 _ _
      rw [hin2] at hin
      cases hin
    · intro e _ hin2 _
      rw [hin2] at hin
      cases hin
    · intro g e _ hin2 _ _ _
      rw [hin2] at hin
      cases hin
  · obtain rfl := parsedBody_ok_inj hp hpb
    refine ⟨?_, ?_, ?_, ?_, ?_, ?_⟩
    · intro hreq htr
      exact (pastCaptcha_not_missing hpc hreq htr).elim
    · intro t hreq htok hne hv
      exact (pastCaptcha_not_rejected hpc hreq htok hv).elim
    · intro _ hin2
      rw [hin] at hin2
      cases hin2
    · intro g2 _ _ hg2 _
      rw [hg] at hg2
      cases hg2
    · intro e2 _ _ _
      rw [he]
      rfl
    · intro g2 e2 _ _ hg2 _ _
      rw [hg] at hg2
      cases hg2
  · obtain rfl := parsedBody_ok_inj hp hpb
    refine ⟨?_, ?_, ?_, ?_, ?_, ?_⟩
    · intro hreq htr
      exact (pastCaptcha_not_missing hpc hreq htr).elim
    · intro t hreq htok hne hv
      exact (pastCaptcha_not_rejected hpc hreq htok hv).elim
    · intro _ hin2
      rw [hin] at hin2
      cases hin2
    · intro g2 _ _ hg2 hout2
      rw [he]
      refine ⟨rfl, rfl, rfl, ?_⟩
      simp [List.countP_cons, List.countP_append, isRenderEv,
        countP_verifyEvents_zero c b isRenderEv (fun t => rfl)]
    · intro e2 _ _ hg2
      rw [hg] at hg2
      cases hg2
    · intro g2 e2 _ _ _ hout2 _
      rw [hout2] at hout
      cases hout
  · obtain rfl := parsedBody_ok_inj hp hpb
    refine ⟨?_, ?_, ?_, ?_, ?_, ?_⟩
    · intro hreq htr
      exact (pastCaptcha_not_missing hpc hreq htr).elim
    · intro t hreq htok hne hv
      exact (pastCaptcha_not_rejected hpc hreq htok hv).elim
    · intro _ hin2
      rw [hin] at hin2
      cases hin2
    · intro g2 _ _ hg2 hout2
      rw [hout2] at hout
      cases hout
    · intro e2 _ _ hg2
      rw [hg] at hg2
      cases hg2
    · intro g2 e2 _ _ _ _ hr2
      rw [he]
      rfl
  · obtain rfl := parsedBody_ok_inj hp hpb
    refine ⟨?_, ?_, ?_, ?_, ?_, ?_⟩
    · intro hreq htr
      exact (pastCaptcha_not_missing hpc hreq htr).elim
    · intro t hreq htok hne hv
      exact (pastCaptcha_not_rejected hpc hreq htok hv).elim
    · intro _ hin2
      rw [hin] at hin2
      cases hin2
    · intro g2 _ _ hg2 hout2
      rw [hout2] at hout
      cases hout
    · intro e2 _ _ hg2
      rw [hg] at hg2
      cases hg2
    · intro g2 e2 _ _ _ _ hr2
      rw [hr] at hr2
      cases hr2

/-- An exception that reaches the catch block produces the full
`ErrorOutcome`. -/
theorem errorOutcome_of_throwOut {c : Ctx} {tr : List Ev} {e : JsError}
    (he : handler c = throwOut c tr e) : ErrorOutcome c e := by
  unfold ErrorOutcome
  rw [he]
  refine ⟨rfl, rfl, rfl, ?_, ?_, rfl⟩
  · intro hdev
    simp [throwOut, resp500, respDetails, hdev]
  · intro hdev
    simp [throwOut, resp500, respDetails, hdev]

/-- C3: when the rate limiter denies the request the handler returns the
middleware's terminal response, with its headers spread into the response,
and never calls the generation backend; with the spec-modelled exceeded
result this is a 429 carrying the remaining/reset headers. -/
theorem c3_rate_limit_terminal (c : Ctx)
    (h : ¬ c.httpMethod = "OPTIONS") : C3Prop c := by
  have hcases := handler_cases c
  constructor
  · intro hrl
    rcases hcases with ⟨hm, _⟩ | ⟨_, _, he⟩ | ⟨e, _, hs, _, _⟩ |
      ⟨b, _, hs, _, _, _, _⟩ | ⟨b, t, _, hs, _, _, _, _, _, _⟩ |
      ⟨b, _, hs, _, _, _, _⟩ | ⟨b, e, _, hs, _, _, _, _, _⟩ |
      ⟨b, g, _, hs, _, _, _, _, _, _⟩ |
      ⟨b, g, e, _, hs, _, _, _, _, _, _, _⟩ |
      ⟨b, g, buf, _, hs, _, _, _, _, _, _, _⟩
    · exact absurd hm h
    · rw [he]
      exact ⟨rfl, rfl, rfl, rfl⟩
    all_goals rw [hrl] at hs; cases hs
  · intro rem rst hrlEq
    have hrl : c.rateLimit.success = false := by
      rw [hrlEq]; rfl
    rcases hcases with ⟨hm, _⟩ | ⟨_, _, he⟩ | ⟨e, _, hs, _, _⟩ |
      ⟨b, _, hs, _, _, _, _⟩ | ⟨b, t, _, hs, _, _, _, _, _, _⟩ |
      ⟨b, _, hs, _, _, _, _⟩ | ⟨b, e, _, hs, _, _, _, _, _⟩ |
      ⟨b, g, _, hs, _, _, _, _, _, _⟩ |
      ⟨b, g, e, _, hs, _, _, _, _, _, _, _⟩ |
      ⟨b, g, buf, _, hs, _, _, _, _, _, _, _⟩
    · exact absurd hm h
    · rw [he]
      refine ⟨by simp [respRateLimited, hrlEq, rateLimitExceededResult],
        ?_, ?_, rfl⟩
      · simp [respRateLimited, hrlEq, rateLimitExceededResult, getHeader,
          corsHeaders]
      · simp [respRateLimited, hrlEq, rateLimitExceededResult, getHeader,
          corsHeaders]
    all_goals rw [hrl] at hs; cases hs

/-- C4: with the captcha gate enabled, a missing token yields 400 with no
verification call and no generation call, while a token the service
rejects yields 403 after exactly one verification call, still never
reaching the generation backend. -/
theorem c4_captcha_gate (c : Ctx)
    (h : ¬ c.httpMethod = "OPTIONS") : C4Prop c := by
  intro b h2 hp hreq
  rcases handler_cases c with ⟨hm, _⟩ | ⟨_, hrl, _⟩ | ⟨e, _, _, hpb, _⟩ |
    ⟨b2, _, _, hpb, _, htr, he⟩ |
    ⟨b2, t, _, _, hpb, _, htok, hne, hv, he⟩ |
    ⟨b2, _, _, hpb, hpc, hin, he⟩ | ⟨b2, e, _, _, hpb, hpc, hin, hg, he⟩ |
    ⟨b2, g, _, _, hpb, hpc, hin, hg, hout, he⟩ |
    ⟨b2, g, e, _, _, hpb, hpc, hin, hg, hout, hr, he⟩ |
    ⟨b2, g, buf, _, _, hpb, hpc, hin, hg, hout, hr, he⟩
  · exact absurd hm h
  · simp [h2] at hrl
  · rw [hp] at hpb
    simp at hpb
  · obtain rfl := parsedBody_ok_inj hp hpb
    constructor
    · intro _
      rw [he]
      exact ⟨rfl, rfl, rfl⟩
    · intro t htok2 hne2 _
      rw [htok2] at htr
      simp [truthy, hne2] at htr
  · obtain rfl := parsedBody_ok_inj hp hpb
    constructor
    · intro htr
      rw [htok] at htr
      simp [truthy, hne] at htr
    · intro t2 htok2 _ _
      rw [htok] at htok2
      injection htok2 with h'
      subst h'
      rw [he]
      refine ⟨rfl, ?_, ?_⟩ <;>
        simp [List.countP_cons, isVerifyEv, isGenerateEv]
  · obtain rfl := parsedBody_ok_inj hp hpb
    constructor
    · intro htr
      exact (pastCaptcha_not_missing hpc hreq htr).elim
    · intro t htok hne hv
      exact (pastCaptcha_not_rejected hpc hreq htok hv).elim
  · obtain rfl := parsedBody_ok_inj hp hpb
    constructor
    · intro htr
      exact (pastCaptcha_not_missing hpc hreq htr).elim
    · intro t htok hne hv
      exact (pastCaptcha_not_rejected hpc hreq htok hv).elim
  · obtain rfl := parsedBody_ok_inj hp hpb
    constructor
    · intro htr
      exact (pastCaptcha_not_missing hpc hreq htr).elim
    · intro t htok hne hv
      exact (pastCaptcha_not_rejected hpc hreq htok hv).elim
  · obtain rfl := parsedBody_ok_inj hp hpb
    constructor
    · intro htr
      exact (pastCaptcha_not_missing hpc hreq htr).elim
    · intro t htok hne hv
      exact (pastCaptcha_not_rejected hpc hreq htok hv).elim
  · obtain rfl := parsedBody_ok_inj hp hpb
    constructor
    · intro htr
      exact (pastCaptcha_not_missing hpc hreq htr).elim
    · intro t htok hne hv
      exact (pastCaptcha_not_rejected hpc hreq htok hv).elim

/-- Amended C5: an uncaught failure in body parsing, generation or
rendering is logged server-side (message, stack, timestamp) and surfaced
as a 500 whose `details` stack appears only in development mode — but
whose `message` embeds the exception's message in every runtime mode. -/
theorem c5_error_surface (c : Ctx)
    (h : ¬ c.httpMethod = "OPTIONS") : C5Prop c := by
  refine ⟨?_, ?_, ?_⟩
  · intro e h2 hp
    rcases handler_cases c with ⟨hm, _⟩ | ⟨_, hrl, _⟩ |
      ⟨e2, _, _, hpb, he⟩ | ⟨b2, _, _, hpb, _, _, _⟩ |
      ⟨b2, t, _, _, hpb, _, _, _, _, _⟩ | ⟨b2, _, _, hpb, _, _, _⟩ |
      ⟨b2, e2, _, _, hpb, _, _, _, _⟩ |
      ⟨b2, g, _, _, hpb, _, _, _, _, _⟩ |
      ⟨b2, g, e2, _, _, hpb, _, _, _, _, _, _⟩ |
      ⟨b2, g, buf, _, _, hpb, _, _, _, _, _, _⟩
    · exact absurd hm h
    · simp [h2] at hrl
    · rw [hp] at hpb
      injection hpb with h'
      subst h'
      exact errorOutcome_of_throwOut he
    all_goals rw [hp] at hpb; cases hpb
  · intro b e h2 hp hpc hin hg
    rcases handler_cases c with ⟨hm, _⟩ | ⟨_, hrl, _⟩ |
      ⟨e2, _, _, hpb, _⟩ | ⟨b2, _, _, hpb, hreq, htr, _⟩ |
      ⟨b2, t, _, _, hpb, hreq, htok, hne, hv, _⟩ |
      ⟨b2, _, _, hpb, _, hin2, _⟩ |
      ⟨b2, e2, _, _, hpb, _, _, hg2, he⟩ |
      ⟨b2, g, _, _, hpb, _, _, hg2, _, _⟩ |
      ⟨b2, g, e2, _, _, hpb, _, _, hg2, _, _, _⟩ |
      ⟨b2, g, buf, _, _, hpb, _, _, hg2, _, _, _⟩
    · exact absurd hm h
    · simp [h2] at hrl
    · rw [hp] at hpb
      cases hpb
    · obtain rfl := parsedBody_ok_inj hp hpb
      exact (pastCaptcha_not_missing hpc hreq htr).elim
    · obtain rfl := parsedBody_ok_inj hp hpb
      exact (pastCaptcha_not_rejected hpc hreq htok hv).elim
    · rw [hin] at hin2
      cases hin2
    · rw [hg] at hg2
      injection hg2 with h'
      subst h'
      exact errorOutcome_of_throwOut he
    all_goals rw [hg] at hg2; cases hg2
  · intro b g e h2 hp hpc hin hg hout hr
    rcases handler_cases c with ⟨hm, _⟩ | ⟨_, hrl, _⟩ |
      ⟨e2, _, _, hpb, _⟩ | ⟨b2, _, _, hpb, hreq, htr, _⟩ |
      ⟨b2, t, _, _, hpb, hreq, htok, hne, hv, _⟩ |
      ⟨b2, _, _, hpb, _, hin2, _⟩ |
      ⟨b2, e2, _, _, hpb, _, _, hg2, _⟩ |
      ⟨b2, g2, _, _, hpb, _, _, hg2, hout2, _⟩ |
      ⟨b2, g2, e2, _, _, hpb, _, _, hg2, hout2, hr2, he⟩ |
      ⟨b2, g2, buf, _, _, hpb, _, _, hg2, hout2, hr2, _⟩
    · exact absurd hm h
    · simp [h2] at hrl
    · rw [hp] at hpb
      cases hpb
    · obtain rfl := parsedBody_ok_inj hp hpb
      exact (pastCaptcha_not_missing hpc hreq htr).elim
    · obtain rfl := parsedBody_ok_inj hp hpb
      exact (pastCaptcha_not_rejected hpc hreq htok hv).elim
    · rw [hin] at hin2
      cases hin2
    · rw [hg] at hg2
      cases hg2
    · rw [hout] at hout2
      cases hout2
    · rw [hr] at hr2
      injection hr2 with h'
      subst h'
      exact errorOutcome_of_throwOut he
    · rw [hr] at hr2
      cases hr2

/-- Amended C7: a parseable JSON body that fails the input schema yields a
400 carrying the field-level issue list, but a body that is not parseable
JSON reaches the catch block and yields a 500. -/
theorem c7_malformed_body (c : Ctx)
    (h : ¬ c.httpMethod = "OPTIONS") : C7Prop c := by
  constructor
  · intro b h2 hp hpc hin
    rcases handler_cases c with ⟨hm, _⟩ | ⟨_, hrl, _⟩ |
      ⟨e2, _, _, hpb, _⟩ | ⟨b2, _, _, hpb, hreq, htr, _⟩ |
      ⟨b2, t, _, _, hpb, hreq, htok, hne, hv, _⟩ |
      ⟨b2, _, _, hpb, _, _, he⟩ |
      ⟨b2, e2, _, _, hpb, _, hin2, _, _⟩ |
      ⟨b2, g, _, _, hpb, _, hin2, _, _, _⟩ |
      ⟨b2, g, e2, _, _, hpb, _, hin2, _, _, _, _⟩ |
      ⟨b2, g, buf, _, _, hpb, _, hin2, _, _, _, _⟩
    · exact absurd hm h
    · simp [h2] at hrl
    · rw [hp] at hpb
      cases hpb
    · obtain rfl := parsedBody_ok_inj hp hpb
      exact (pastCaptcha_not_missing hpc hreq htr).elim
    · obtain rfl := parsedBody_ok_inj hp hpb
      exact (pastCaptcha_not_rejected hpc hreq htok hv).elim
    · rw [he]
      exact ⟨rfl, rfl⟩
    all_goals rw [hin] at hin2; cases hin2
  · intro e h2 hp
    rcases handler_cases c with ⟨hm, _⟩ | ⟨_, hrl, _⟩ |
      ⟨e2, _, _, hpb, he⟩ | ⟨b2, _, _, hpb, _, _, _⟩ |
      ⟨b2, t, _, _, hpb, _, _, _, _, _⟩ | ⟨b2, _, _, hpb, _, _, _⟩ |
      ⟨b2, e2, _, _, hpb, _, _, _, _⟩ |
      ⟨b2, g, _, _, hpb, _, _, _, _, _⟩ |
      ⟨b2, g, e2, _, _, hpb, _, _, _, _, _, _⟩ |
      ⟨b2, g, buf, _, _, hpb, _, _, _, _, _, _⟩
    · exact absurd hm h
    · simp [h2] at hrl
    · rw [he]
      rfl
    all_goals rw [hp] at hpb; cases hpb

/-- A key found among the CORS headers is still found after the middleware
headers are spread in, provided they do not shadow it. -/
theorem getHeader_cors_append (extra : List (String × String)) (k v : String)
    (hk : getHeader corsHeaders k = some v)
    (hx : ∀ p ∈ extra, ¬ p.1 = k) :
    getHeader (corsHeaders ++ extra) k = some v := by
  unfold getHeader at hk ⊢
  rw [List.reverse_append, List.find?_append]
  have hnone : extra.reverse.find? (fun p => p.1 == k) = none := by
    rw [List.find?_eq_none]
    intro p hp
    simp [hx p (List.mem_reverse.mp hp)]
  rw [hnone]
  simpa using hk

/-- C6: the all-gates-pass response is HTTP 200 with the binary document
content type, a `lease-<unix-timestamp>.docx` attachment filename, the
rate-limit bookkeeping headers, and exactly the renderer's buffer as
transport-encoded body. -/
theorem c6_success_response (c : Ctx)
    (h : ¬ c.httpMethod = "OPTIONS") : C6Prop c := by
  intro b g buf h2 hp hpc hin hg hout hr
  rcases handler_cases c with ⟨hm, _⟩ | ⟨_, hrl, _⟩ |
    ⟨e2, _, _, hpb, _⟩ | ⟨b2, _, _, hpb, hreq, htr, _⟩ |
    ⟨b2, t, _, _, hpb, hreq, htok, hne, hv, _⟩ |
    ⟨b2, _, _, hpb, _, hin2, _⟩ |
    ⟨b2, e2, _, _, hpb, _, _, hg2, _⟩ |
    ⟨b2, g2, _, _, hpb, _, _, hg2, hout2, _⟩ |
    ⟨b2, g2, e2, _, _, hpb, _, _, hg2, hout2, hr2, _⟩ |
    ⟨b2, g2, buf2, _, _, hpb, _, _, hg2, hout2, hr2, he⟩
  · exact absurd hm h
  · simp [h2] at hrl
  · rw [hp] at hpb
    cases hpb
  · obtain rfl := parsedBody_ok_inj hp hpb
    exact (pastCaptcha_not_missing hpc hreq htr).elim
  · obtain rfl := parsedBody_ok_inj hp hpb
    exact (pastCaptcha_not_rejected hpc hreq htok hv).elim
  · rw [hin] at hin2
    cases hin2
  · rw [hg] at hg2
    cases hg2
  · rw [hout] at hout2
    cases hout2
  · rw [hr] at hr2
    cases hr2
  · rw [hr] at hr2
    injection hr2 with h'
    subst h'
    rw [he]
    refine ⟨rfl, ?_, ?_, ⟨c.now, ?_⟩, ?_, ?_, rfl, rfl⟩ <;>
      simp [successResponse, getHeader, corsHeaders]

/-- C9: every response of the handler — preflight, every failure response,
and the success response — resolves the three CORS header keys to the
values set at the top of the handler. -/
theorem c9_cors_on_every_response (c : Ctx) (h : NoCorsOverride c) :
    C9Prop c := by
  rcases handler_cases c with ⟨_, he⟩ | ⟨_, _, he⟩ | ⟨e, _, _, _, he⟩ |
    ⟨b, _, _, _, _, _, he⟩ | ⟨b, t, _, _, _, _, _, _, _, he⟩ |
    ⟨b, _, _, _, _, _, he⟩ | ⟨b, e, _, _, _, _, _, _, he⟩ |
    ⟨b, g, _, _, _, _, _, _, _, he⟩ |
    ⟨b, g, e, _, _, _, _, _, _, _, _, he⟩ |
    ⟨b, g, buf, _, _, _, _, _, _, _, _, he⟩
  · rw [C9Prop, he]
    refine ⟨?_, ?_, ?_⟩ <;> simp [getHeader, corsHeaders]
  · rw [C9Prop, he]
    refine ⟨?_, ?_, ?_⟩
    · exact getHeader_cors_append _ _ _ (by simp [getHeader, corsHeaders])
        (fun p hp => (h p hp).1)
    · exact getHeader_cors_append _ _ _ (by simp [getHeader, corsHeaders])
        (fun p hp => (h p hp).2.1)
    · exact getHeader_cors_append _ _ _ (by simp [getHeader, corsHeaders])
        (fun p hp => (h p hp).2.2)
  · rw [C9Prop, he]
    refine ⟨?_, ?_, ?_⟩ <;> simp [throwOut, resp500, getHeader, corsHeaders]
  · rw [C9Prop, he]
    refine ⟨?_, ?_, ?_⟩ <;>
      simp [respCaptchaMissing, getHeader, corsHeaders]
  · rw [C9Prop, he]
    refine ⟨?_, ?_, ?_⟩ <;>
      simp [respCaptchaRejected, getHeader, corsHeaders]
  · rw [C9Prop, he]
    refine ⟨?_, ?_, ?_⟩ <;>
      simp [respInputInvalid, getHeader, corsHeaders]
  · rw [C9Prop, he]
    refine ⟨?_, ?_, ?_⟩ <;> simp [throwOut, resp500, getHeader, corsHeaders]
  · rw [C9Prop, he]
    refine ⟨?_, ?_, ?_⟩ <;>
      simp [respOutputInvalid, getHeader, corsHeaders]
  · rw [C9Prop, he]
    refine ⟨?_, ?_, ?_⟩ <;> simp [throwOut, resp500, getHeader, corsHeaders]
  · rw [C9Prop, he]
    refine ⟨?_, ?_, ?_⟩ <;>
      simp [successResponse, getHeader, corsHeaders]

/-- Amended C8: the generation backend is selected inside the per-request
pipeline — each request that reaches the generation stage performs exactly
one provider construction, and requests stopped earlier perform none. -/
theorem c8_per_request_selection (c : Ctx) : C8Prop c := by
  rcases handler_cases c with ⟨hm, he⟩ | ⟨hm, hrl, he⟩ |
    ⟨e, hm, h2, hpb, he⟩ | ⟨b, hm, h2, hpb, hreq, htr, he⟩ |
    ⟨b, t, hm, h2, hpb, hreq, htok, hne, hv, he⟩ |
    ⟨b, hm, h2, hpb, hpc, hin, he⟩ |
    ⟨b, e, hm, h2, hpb, hpc, hin, hg, he⟩ |
    ⟨b, g, hm, h2, hpb, hpc, hin, hg, hout, he⟩ |
    ⟨b, g, e, hm, h2, hpb, hpc, hin, hg, hout, hr, he⟩ |
    ⟨b, g, buf, hm, h2, hpb, hpc, hin, hg, hout, hr, he⟩
  · refine ⟨fun hreach => absurd hm hreach.1, fun _ => ?_⟩
    rw [he]
    rfl
  · refine ⟨fun hreach => ?_, fun _ => ?_⟩
    · rw [hreach.2.1] at hrl
      cases hrl
    · rw [he]
      rfl
  · refine ⟨fun hreach => ?_, fun _ => ?_⟩
    · obtain ⟨_, _, ⟨b, hp, _⟩, _⟩ := hreach
      rw [hp] at hpb
      cases hpb
    · rw [he]
      rfl
  · refine ⟨fun hreach => ?_, fun _ => ?_⟩
    · obtain ⟨_, _, ⟨b2, hp, hpc⟩, _⟩ := hreach
      obtain rfl := parsedBody_ok_inj hp hpb
      exact (pastCaptcha_not_missing hpc hreq htr).elim
    · rw [he]
      rfl
  · refine ⟨fun hreach => ?_, fun _ => ?_⟩
    · obtain ⟨_, _, ⟨b2, hp, hpc⟩, _⟩ := hreach
      obtain rfl := parsedBody_ok_inj hp hpb
      exact (pastCaptcha_not_rejected hpc hreq htok hv).elim
    · rw [he]
      simp [List.countP_cons, isCreateProviderEv]
  · refine ⟨fun hreach => ?_, fun _ => ?_⟩
    · rw [hreach.2.2.2] at hin
      cases hin
    · rw [he]
      simp [List.countP_append, List.countP_cons, isCreateProviderEv,
        countP_verifyEvents_zero c b isCreateProviderEv (fun t => rfl)]
  · have hreach : ReachesGeneration c := ⟨hm, h2, ⟨b, hpb, hpc⟩, hin⟩
    refine ⟨fun _ => ?_, fun hn => absurd hreach hn⟩
    rw [he]
    simp [throwOut, List.countP_append, List.countP_cons, isCreateProviderEv,
      countP_verifyEvents_zero c b isCreateProviderEv (fun t => rfl)]
  · have hreach : ReachesGeneration c := ⟨hm, h2, ⟨b, hpb, hpc⟩, hin⟩
    refine ⟨fun _ => ?_, fun hn => absurd hreach hn⟩
    rw [he]
    simp [List.countP_append, List.countP_cons, isCreateProviderEv,
      countP_verifyEvents_zero c b isCreateProviderEv (fun t => rfl)]
  · have hreach : ReachesGeneration c := ⟨hm, h2, ⟨b, hpb, hpc⟩, hin⟩
    refine ⟨fun _ => ?_, fun hn => absurd hreach hn⟩
    rw [he]
    simp [throwOut, List.countP_append, List.countP_cons, isCreateProviderEv,
      countP_verifyEvents_zero c b isCreateProviderEv (fun t => rfl)]
  · have hreach : ReachesGeneration c := ⟨hm, h2, ⟨b, hpb, hpc⟩, hin⟩
    refine ⟨fun _ => ?_, fun hn => absurd hreach hn⟩
    rw [he]
    simp [List.countP_append, List.countP_cons, isCreateProviderEv,
      countP_verifyEvents_zero c b isCreateProviderEv (fun t => rfl)]

/-- Every verification event sits at pipeline stage 1. -/
theorem stageIdx_verifyEvents {c : Ctx} {b : ParsedBody} :
    ∀ e ∈ verifyEvents c b, stageIdx e = 1 := by
  rcases verifyEvents_cases c b with h | ⟨t, _, h⟩ <;> simp [h, stageIdx]

/-- A one-element rate-limit trace is bounded by every stage index. -/
theorem stage_bound_single {k : Nat} :
    ∀ e ∈ [Ev.rateLimitCall], stageIdx e ≤ k := by
  intro e he
  simp at he
  subst he
  simp [stageIdx]

/-- Stage bound for the standard trace shape: rate limit, then the
verification events, then a tail bounded by `k ≥ 1`. -/
theorem stage_bound_shape (c : Ctx) (b : ParsedBody) (l : List Ev) (k : Nat)
    (hk : 1 ≤ k) (hl : ∀ e ∈ l, stageIdx e ≤ k) :
    ∀ e ∈ [Ev.rateLimitCall] ++ verifyEvents c b ++ l, stageIdx e ≤ k := by
  intro e hme
  rcases List.mem_append.mp hme with hme | hme
  · rcases List.mem_append.mp hme with hme | hme
    · simp at hme
      subst hme
      simp [stageIdx]
    · rw [stageIdx_verifyEvents e hme]
      exact hk
  · exact hl e hme

/-- C1: the handler's trace is a prefix of the prescribed stage order
RateLimit, ChallengeVerify (when enabled), InputValidate, Generate,
OutputValidate, Telemetry, Render; and a failure at any stage bounds the
invoked operations to stages no later than the failing one. -/
theorem c1_stage_order (c : Ctx) (h : ¬ c.httpMethod = "OPTIONS") :
    C1Prop c := by
  rcases handler_cases c with ⟨hm, he⟩ | ⟨hm, hrl, he⟩ |
    ⟨e, hm, h2, hpb, he⟩ | ⟨b, hm, h2, hpb, hreq, htr, he⟩ |
    ⟨b, t, hm, h2, hpb, hreq, htok, hne, hv, he⟩ |
    ⟨b, hm, h2, hpb, hpc, hin, he⟩ |
    ⟨b, e, hm, h2, hpb, hpc, hin, hg, he⟩ |
    ⟨b, g, hm, h2, hpb, hpc, hin, hg, hout, he⟩ |
    ⟨b, g, e, hm, h2, hpb, hpc, hin, hg, hout, hr, he⟩ |
    ⟨b, g, buf, hm, h2, hpb, hpc, hin, hg, hout, hr, he⟩
  · exact absurd hm h
  · have hpre : (handler c).trace <+: stageSeq c := by
      rw [he]
      exact ⟨verifyPart c ++ [Ev.inputValidateCall, Ev.createProviderCall,
        Ev.generateCall, Ev.outputValidateCall] ++ telemetryTail c,
        by simp [stageSeq, List.append_assoc]⟩
    refine ⟨⟨_, List.prefix_iff_eq_take.mp hpre⟩, ?_, ?_, ?_, ?_, ?_, ?_⟩
    · intro _
      rw [he]
      exact stage_bound_single
    · intro _ _ _ _
      rw [he]
      exact stage_bound_single
    · intro _ _ _ _ _ _ _
      rw [he]
      exact stage_bound_single
    · intro _
      rw [he]
      exact stage_bound_single
    · intro _ _
      rw [he]
      exact stage_bound_single
    · intro _
      rw [he]
      exact stage_bound_single
  · have hpre : (handler c).trace <+: stageSeq c := by
      rw [he]
      exact ⟨verifyPart c ++ [Ev.inputValidateCall, Ev.createProviderCall,
        Ev.generateCall, Ev.outputValidateCall] ++ telemetryTail c,
        by simp [throwOut, stageSeq, List.append_assoc]⟩
    refine ⟨⟨_, List.prefix_iff_eq_take.mp hpre⟩, ?_, ?_, ?_, ?_, ?_, ?_⟩
    · intro _
      rw [he]
      exact stage_bound_single
    · intro _ _ _ _
      rw [he]
      exact stage_bound_single
    · intro _ _ _ _ _ _ _
      rw [he]
      exact stage_bound_single
    · intro _
      rw [he]
      exact stage_bound_single
    · intro _ _
      rw [he]
      exact stage_bound_single
    · intro _
      rw [he]
      exact stage_bound_single
  · have hpre : (handler c).trace <+: stageSeq c := by
      rw [he]
      exact ⟨verifyPart c ++ [Ev.inputValidateCall, Ev.createProviderCall,
        Ev.generateCall, Ev.outputValidateCall] ++ telemetryTail c,
        by simp [stageSeq, List.append_assoc]⟩
    refine ⟨⟨_, List.prefix_iff_eq_take.mp hpre⟩, ?_, ?_, ?_, ?_, ?_, ?_⟩
    · intro _
      rw [he]
      exact stage_bound_single
    · intro _ _ _ _
      rw [he]
      exact stage_bound_single
    · intro _ _ _ _ _ _ _
      rw [he]
      exact stage_bound_single
    · intro _
      rw [he]
      exact stage_bound_single
    · intro _ _
      rw [he]
      exact stage_bound_single
    · intro _
      rw [he]
      exact stage_bound_single
  · have hvp : verifyPart c = [Ev.verifyCaptchaCall t] := by
      simp [verifyPart, hpb, verifyEvents, hreq, htok, hne]
    have hpre : (handler c).trace <+: stageSeq c := by
      rw [he]
      exact ⟨[Ev.inputValidateCall, Ev.createProviderCall, Ev.generateCall,
        Ev.outputValidateCall] ++ telemetryTail c,
        by simp [stageSeq, hvp, List.append_assoc]⟩
    have hbound : ∀ k, 1 ≤ k →
        ∀ e ∈ (handler c).trace, stageIdx e ≤ k := by
      intro k hk e' he'
      rw [he] at he'
      simp at he'
      rcases he' with he' | he'
      · subst he'
        simp [stageIdx]
      · subst he'
        simpa [stageIdx] using hk
    refine ⟨⟨_, List.prefix_iff_eq_take.mp hpre⟩, ?_, ?_, ?_, ?_, ?_, ?_⟩
    · intro hrl
      rw [h2] at hrl
      cases hrl
    · intro b2 hp2 _ htr2
      obtain rfl := parsedBody_ok_inj hp2 hpb
      rw [htok] at htr2
      simp [truthy, hne] at htr2
    · intro _ _ _ _ _ _ _
      exact hbound 1 le_rfl
    · intro _
      exact hbound 2 (by decide)
    · intro _ _
      exact hbound 3 (by decide)
    · intro _
      exact hbound 4 (by decide)
  · have hvp : verifyPart c = verifyEvents c b := by
      simp [verifyPart, hpb]
    have hpre : (handler c).trace <+: stageSeq c := by
      rw [he]
      exact ⟨[Ev.createProviderCall, Ev.generateCall,
        Ev.outputValidateCall] ++ telemetryTail c,
        by simp [stageSeq, hvp, List.append_assoc]⟩
    refine ⟨⟨_, List.prefix_iff_eq_take.mp hpre⟩, ?_, ?_, ?_, ?_, ?_, ?_⟩
    · intro hrl
      rw [h2] at hrl
      cases hrl
    · intro b2 hp2 hreq htr2
      obtain rfl := parsedBody_ok_inj hp2 hpb
      exact (pastCaptcha_not_missing hpc hreq htr2).elim
    · intro b2 t hp2 htok hne hreq hv
      obtain rfl := parsedBody_ok_inj hp2 hpb
      exact (pastCaptcha_not_rejected hpc hreq htok hv).elim
    · intro _
      rw [he]
      exact stage_bound_shape c b _ 2 (by decide) (by simp [stageIdx])
    · intro _ _
      rw [he]
      exact stage_bound_shape c b _ 3 (by decide) (by simp [stageIdx])
    · intro _
      rw [he]
      exact stage_bound_shape c b _ 4 (by decide) (by simp [stageIdx])
  · have hvp : verifyPart c = verifyEvents c b := by
      simp [verifyPart, hpb]
    have hpre : (handler c).trace <+: stageSeq c := by
      rw [he]
      exact ⟨[Ev.outputValidateCall] ++ telemetryTail c,
        by simp [throwOut, stageSeq, hvp, List.append_assoc]⟩
    refine ⟨⟨_, List.prefix_iff_eq_take.mp hpre⟩, ?_, ?_, ?_, ?_, ?_, ?_⟩
    · intro hrl
      rw [h2] at hrl
      cases hrl
    · intro b2 hp2 hreq htr2
      obtain rfl := parsedBody_ok_inj hp2 hpb
      exact (pastCaptcha_not_missing hpc hreq htr2).elim
    · intro b2 t hp2 htok hne hreq hv
      obtain rfl := parsedBody_ok_inj hp2 hpb
      exact (pastCaptcha_not_rejected hpc hreq htok hv).elim
    · intro hin2
      rw [hin2] at hin
      cases hin
    · intro _ _
      rw [he]
      exact stage_bound_shape c b _ 3 (by decide) (by simp [stageIdx])
    · intro _
      rw [he]
      exact stage_bound_shape c b _ 4 (by decide) (by simp [stageIdx])
  · have hvp : verifyPart c = verifyEvents c b := by
      simp [verifyPart, hpb]
    have hpre : (handler c).trace <+: stageSeq c := by
      rw [he]
      exact ⟨telemetryTail c, by simp [stageSeq, hvp, List.append_assoc]⟩
    refine ⟨⟨_, List.prefix_iff_eq_take.mp hpre⟩, ?_, ?_, ?_, ?_, ?_, ?_⟩
    · intro hrl
      rw [h2] at hrl
      cases hrl
    · intro b2 hp2 hreq htr2
      obtain rfl := parsedBody_ok_inj hp2 hpb
      exact (pastCaptcha_not_missing hpc hreq htr2).elim
    · intro b2 t hp2 htok hne hreq hv
      obtain rfl := parsedBody_ok_inj hp2 hpb
      exact (pastCaptcha_not_rejected hpc hreq htok hv).elim
    · intro hin2
      rw [hin2] at hin
      cases hin
    · intro er hg2
      rw [hg] at hg2
      cases hg2
    · intro _
      rw [he]
      exact stage_bound_shape c b _ 4 (by decide) (by simp [stageIdx])
  · have hvp : verifyPart c = verifyEvents c b := by
      simp [verifyPart, hpb]
    have htt : telemetryTail c = [Ev.logTokenUsageCall g.tokenUsage,
        Ev.trackDailyCostCall g.estimatedCost,
        Ev.renderCall g.leaseData] := by
      simp [telemetryTail, hg]
    have hpre : (handler c).trace <+: stageSeq c := by
      rw [he]
      exact ⟨[], by simp [throwOut, stageSeq, hvp, htt, List.append_assoc]⟩
    refine ⟨⟨_, List.prefix_iff_eq_take.mp hpre⟩, ?_, ?_, ?_, ?_, ?_, ?_⟩
    · intro hrl
      rw [h2] at hrl
      cases hrl
    · intro b2 hp2 hreq htr2
      obtain rfl := parsedBody_ok_inj hp2 hpb
      exact (pastCaptcha_not_missing hpc hreq htr2).elim
    · intro b2 t hp2 htok hne hreq hv
      obtain rfl := parsedBody_ok_inj hp2 hpb
      exact (pastCaptcha_not_rejected hpc hreq htok hv).elim
    · intro hin2
      rw [hin2] at hin
      cases hin
    · intro er hg2
      rw [hg] at hg2
      cases hg2
    · intro hout2
      rw [hout2] at hout
      cases hout
  · have hvp : verifyPart c = verifyEvents c b := by
      simp [verifyPart, hpb]
    have htt : telemetryTail c = [Ev.logTokenUsageCall g.tokenUsage,
        Ev.trackDailyCostCall g.estimatedCost,
        Ev.renderCall g.leaseData] := by
      simp [telemetryTail, hg]
    have hpre : (handler c).trace <+: stageSeq c := by
      rw [he]
      exact ⟨[], by simp [throwOut, stageSeq, hvp, htt, List.append_assoc]⟩
    refine ⟨⟨_, List.prefix_iff_eq_take.mp hpre⟩, ?_, ?_, ?_, ?_, ?_, ?_⟩
    · intro hrl
      rw [h2] at hrl
      cases hrl
    · intro b2 hp2 hreq htr2
      obtain rfl := parsedBody_ok_inj hp2 hpb
      exact (pastCaptcha_not_missing hpc hreq htr2).elim
    · intro b2 t hp2 htok hne hreq hv
      obtain rfl := parsedBody_ok_inj hp2 hpb
      exact (pastCaptcha_not_rejected hpc hreq htok hv).elim
    · intro hin2
      rw [hin2] at hin
      cases hin
    · intro er hg2
      rw [hg] at hg2
      cases hg2
    · intro hout2
      rw [hout2] at hout
      cases hout

/-- Amended C10: `logTokenUsage` and `trackDailyCost` run exactly once if
and only if the request passes output validation; requests failing at or
before output validation (in particular the 422 path) leave telemetry
untouched — but a rendering failure after output validation occurs with
telemetry already recorded. -/
theorem c10_telemetry_iff_output_valid (c : Ctx) : C10Prop c := by
  rcases handler_cases c with ⟨hm, he⟩ | ⟨hm, hrl, he⟩ |
    ⟨e, hm, h2, hpb, he⟩ | ⟨b, hm, h2, hpb, hreq, htr, he⟩ |
    ⟨b, t, hm, h2, hpb, hreq, htok, hne, hv, he⟩ |
    ⟨b, hm, h2, hpb, hpc, hin, he⟩ |
    ⟨b, e, hm, h2, hpb, hpc, hin, hg, he⟩ |
    ⟨b, g, hm, h2, hpb, hpc, hin, hg, hout, he⟩ |
    ⟨b, g, e, hm, h2, hpb, hpc, hin, hg, hout, hr, he⟩ |
    ⟨b, g, buf, hm, h2, hpb, hpc, hin, hg, hout, hr, he⟩
  · have hc1 : (handler c).trace.countP isLogTokenUsageEv = 0 := by
      rw [he]; rfl
    have hc2 : (handler c).trace.countP isTrackDailyCostEv = 0 := by
      rw [he]; rfl
    refine ⟨iff_of_false (fun hl => ?_) (fun hr => absurd hm hr.1),
      fun _ => ⟨hc1, hc2⟩⟩
    rw [hc1] at hl
    cases hl.1
  · have hc1 : (handler c).trace.countP isLogTokenUsageEv = 0 := by
      rw [he]; rfl
    have hc2 : (handler c).trace.countP isTrackDailyCostEv = 0 := by
      rw [he]; rfl
    refine ⟨iff_of_false (fun hl => ?_) (fun hr => ?_),
      fun _ => ⟨hc1, hc2⟩⟩
    · rw [hc1] at hl
      cases hl.1
    · rw [hr.2.1] at hrl
      cases hrl
  · have hc1 : (handler c).trace.countP isLogTokenUsageEv = 0 := by
      rw [he]; rfl
    have hc2 : (handler c).trace.countP isTrackDailyCostEv = 0 := by
      rw [he]; rfl
    refine ⟨iff_of_false (fun hl => ?_) (fun hr => ?_),
      fun _ => ⟨hc1, hc2⟩⟩
    · rw [hc1] at hl
      cases hl.1
    · obtain ⟨_, _, ⟨b, hp, _⟩, _⟩ := hr
      rw [hp] at hpb
      cases hpb
  · have hc1 : (handler c).trace.countP isLogTokenUsageEv = 0 := by
      rw [he]; rfl
    have hc2 : (handler c).trace.countP isTrackDailyCostEv = 0 := by
      rw [he]; rfl
    refine ⟨iff_of_false (fun hl => ?_) (fun hr => ?_),
      fun _ => ⟨hc1, hc2⟩⟩
    · rw [hc1] at hl
      cases hl.1
    · obtain ⟨_, _, ⟨b2, hp, hpc⟩, _⟩ := hr
      obtain rfl := parsedBody_ok_inj hp hpb
      exact (pastCaptcha_not_missing hpc hreq htr).elim
  · have hc1 : (handler c).trace.countP isLogTokenUsageEv = 0 := by
      rw [he]; rfl
    have hc2 : (handler c).trace.countP isTrackDailyCostEv = 0 := by
      rw [he]; rfl
    refine ⟨iff_of_false (fun hl => ?_) (fun hr => ?_),
      fun _ => ⟨hc1, hc2⟩⟩
    · rw [hc1] at hl
      cases hl.1
    · obtain ⟨_, _, ⟨b2, hp, hpc⟩, _⟩ := hr
      obtain rfl := parsedBody_ok_inj hp hpb
      exact (pastCaptcha_not_rejected hpc hreq htok hv).elim
  · have hc1 : (handler c).trace.countP isLogTokenUsageEv = 0 := by
      rw [he]
      simp [List.countP_append, List.countP_cons, isLogTokenUsageEv,
        countP_verifyEvents_zero c b isLogTokenUsageEv (fun t => rfl)]
    have hc2 : (handler c).trace.countP isTrackDailyCostEv = 0 := by
      rw [he]
      simp [List.countP_append, List.countP_cons, isTrackDailyCostEv,
        countP_verifyEvents_zero c b isTrackDailyCostEv (fun t => rfl)]
    refine ⟨iff_of_false (fun hl => ?_) (fun hr => ?_),
      fun _ => ⟨hc1, hc2⟩⟩
    · rw [hc1] at hl
      cases hl.1
    · rw [hr.2.2.2.1] at hin
      cases hin
  · have hc1 : (handler c).trace.countP isLogTokenUsageEv = 0 := by
      rw [he]
      simp [throwOut, List.countP_append, List.countP_cons,
        isLogTokenUsageEv,
        countP_verifyEvents_zero c b isLogTokenUsageEv (fun t => rfl)]
    have hc2 : (handler c).trace.countP isTrackDailyCostEv = 0 := by
      rw [he]
      simp [throwOut, List.countP_append, List.countP_cons,
        isTrackDailyCostEv,
        countP_verifyEvents_zero c b isTrackDailyCostEv (fun t => rfl)]
    refine ⟨iff_of_false (fun hl => ?_) (fun hr => ?_),
      fun _ => ⟨hc1, hc2⟩⟩
    · rw [hc1] at hl
      cases hl.1
    · obtain ⟨_, _, _, _, ⟨g, hg2⟩, _⟩ := hr
      rw [hg] at hg2
      cases hg2
  · have hc1 : (handler c).trace.countP isLogTokenUsageEv = 0 := by
      rw [he]
      simp [List.countP_append, List.countP_cons, isLogTokenUsageEv,
        countP_verifyEvents_zero c b isLogTokenUsageEv (fun t => rfl)]
    have hc2 : (handler c).trace.countP isTrackDailyCostEv = 0 := by
      rw [he]
      simp [List.countP_append, List.countP_cons, isTrackDailyCostEv,
        countP_verifyEvents_zero c b isTrackDailyCostEv (fun t => rfl)]
    refine ⟨iff_of_false (fun hl => ?_) (fun hr => ?_),
      fun _ => ⟨hc1, hc2⟩⟩
    · rw [hc1] at hl
      cases hl.1
    · rw [hr.2.2.2.2.2] at hout
      cases hout
  · have hpass : PassesOutputValidation c :=
      ⟨hm, h2, ⟨b, hpb, hpc⟩, hin, ⟨g, hg⟩, hout⟩
    have hc1 : (handler c).trace.countP isLogTokenUsageEv = 1 := by
      rw [he]
      simp [throwOut, List.countP_append, List.countP_cons,
        isLogTokenUsageEv,
        countP_verifyEvents_zero c b isLogTokenUsageEv (fun t => rfl)]
    have hc2 : (handler c).trace.countP isTrackDailyCostEv = 1 := by
      rw [he]
      simp [throwOut, List.countP_append, List.countP_cons,
        isTrackDailyCostEv,
        countP_verifyEvents_zero c b isTrackDailyCostEv (fun t => rfl)]
    refine ⟨iff_of_true ⟨hc1, hc2⟩ hpass, fun hout2 => ?_⟩
    rw [hout2] at hout
    cases hout
  · have hpass : PassesOutputValidation c :=
      ⟨hm, h2, ⟨b, hpb, hpc⟩, hin, ⟨g, hg⟩, hout⟩
    have hc1 : (handler c).trace.countP isLogTokenUsageEv = 1 := by
      rw [he]
      simp [List.countP_append, List.countP_cons, isLogTokenUsageEv,
        countP_verifyEvents_zero c b isLogTokenUsageEv (fun t => rfl)]
    have hc2 : (handler c).trace.countP isTrackDailyCostEv = 1 := by
      rw [he]
      simp [List.countP_append, List.countP_cons, isTrackDailyCostEv,
        countP_verifyEvents_zero c b isTrackDailyCostEv (fun t => rfl)]
    refine ⟨iff_of_true ⟨hc1, hc2⟩ hpass, fun hout2 => ?_⟩
    rw [hout2] at hout
    cases hout

/-- Witness for C1 at the concrete happy-path context. -/
theorem c1_stage_order_witness :
    ¬ ctx0.httpMethod = "OPTIONS" ∧ C1Prop ctx0 :=
  ⟨by decide, c1_stage_order ctx0 (by decide)⟩

/-- Witness for C2 at the concrete context whose generator output fails
output validation on `financials.monthlyRent`. -/
theorem c2_failure_status_mapping_witness :
    ¬ ctxBadOutput.httpMethod = "OPTIONS" ∧ C2Prop ctxBadOutput :=
  ⟨by decide, c2_failure_status_mapping ctxBadOutput (by decide)⟩

/-- Witness for C3 at the concrete rate-limited context. -/
theorem c3_rate_limit_terminal_witness :
    ¬ ctxRateLimited.httpMethod = "OPTIONS" ∧ C3Prop ctxRateLimited :=
  ⟨by decide, c3_rate_limit_terminal ctxRateLimited (by decide)⟩

/-- Witness for C4 at the concrete context with a missing captcha token. -/
theorem c4_captcha_gate_witness :
    ¬ ctxNoToken.httpMethod = "OPTIONS" ∧ C4Prop ctxNoToken :=
  ⟨by decide, c4_captcha_gate ctxNoToken (by decide)⟩

/-- Witness for the amended C5 at the concrete context whose generation
call throws. -/
theorem c5_error_surface_witness :
    ¬ ctxGenBoom.httpMethod = "OPTIONS" ∧ C5Prop ctxGenBoom :=
  ⟨by decide, c5_error_surface ctxGenBoom (by decide)⟩

/-- Witness for C6 at the concrete happy-path context. -/
theorem c6_success_response_witness :
    ¬ ctx0.httpMethod = "OPTIONS" ∧ C6Prop ctx0 :=
  ⟨by decide, c6_success_response ctx0 (by decide)⟩

/-- Witness for the amended C7 at the concrete context whose body is not
parseable JSON. -/
theorem c7_malformed_body_witness :
    ¬ ctxBadJson.httpMethod = "OPTIONS" ∧ C7Prop ctxBadJson :=
  ⟨by decide, c7_malformed_body ctxBadJson (by decide)⟩

/-- Witness for the amended C8 at the concrete happy-path context. -/
theorem c8_per_request_selection_witness : C8Prop ctx0 :=
  c8_per_request_selection ctx0

/-- Witness for C9 at the concrete happy-path context, whose middleware
headers shadow no CORS key. -/
theorem c9_cors_witness : NoCorsOverride ctx0 ∧ C9Prop ctx0 :=
  ⟨by unfold NoCorsOverride; decide,
    c9_cors_on_every_response ctx0 (by unfold NoCorsOverride; decide)⟩

/-- Witness for the amended C10 at the concrete context whose renderer
throws after telemetry has run. -/
theorem c10_telemetry_witness : C10Prop ctxRenderFail :=
  c10_telemetry_iff_output_valid ctxRenderFail

/-- Counterexample to C5 as stated: in production mode (`isDevelopment`
false) the 500 body still embeds the exception's message — two requests
differing only in the thrown message produce different bodies. -/
theorem c5_counterexample :
    ctxGenBoom.isDevelopment = false ∧
    (handler ctxGenBoom).response.statusCode = 500 ∧
    respMessage (handler ctxGenBoom).response =
      some "An unexpected error occurred: boom. Please try again." ∧
    ¬ respMessage (handler ctxGenBoom).response =
      respMessage (handler ctxGenBam).response := by
  decide

/-- Counterexample to C7 as stated: a body that is not parseable JSON
yields 500, not a 400 client error. -/
theorem c7_counterexample :
    (handler ctxBadJson).response.statusCode = 500 ∧
    ¬ (handler ctxBadJson).response.statusCode = 400 := by
  decide

/-- Counterexample to C8 as stated: handling a request does invoke the
provider construction inside the per-request pipeline. -/
theorem c8_counterexample :
    (handler ctx0).trace.countP isCreateProviderEv = 1 ∧
    ¬ (handler ctx0).trace.countP isCreateProviderEv = 0 := by
  decide

/-- Counterexample to C10 as stated: a failed request (renderer threw,
response 500) on which telemetry was nevertheless recorded. -/
theorem c10_counterexample :
    (handler ctxRenderFail).response.statusCode = 500 ∧
    (handler ctxRenderFail).trace.countP isLogTokenUsageEv = 1 ∧
    (handler ctxRenderFail).trace.countP isTrackDailyCostEv = 1 := by
  decide

end LeaseGen
